import Mathlib

/-!
# perfectassistant-2api worker: pseudo-streaming engine

A shallow embedding of `src/worker.js` (the chat-completions handler, its
pseudo-stream producer and the non-streaming result builder) together with
the properties its specification states about them.

Modelling conventions.
* A JavaScript string is the list of its UTF-16 code units, so `length`
  and `slice` are list length and list slicing.
* The asynchronous producer is run sequentially against a sink that decides,
  per write index, whether the write promise is fulfilled or rejected; what
  it does is recorded as a list of events.
* `crypto.randomUUID()`, `Date.now()` and the upstream `fetch` are inputs.
* The whole handler is modelled on request bodies that follow the
  chat-completions schema (`model`, `messages` with `role` and `content`
  strings, `stream`); its first part, up to the extraction of the prompt, is
  also modelled on arbitrary JSON bodies (`handleChatCompletionsRaw`), and
  the two agree on schema-conforming bodies. Upstream bodies follow the
  format documented in the source (`response`, `responses`).
-/

namespace Worker

/-! ## Strings -/

/-- A JavaScript string, as its sequence of UTF-16 code units. -/
abbrev JSString := List Nat

/-- UTF-16 code units of one Unicode scalar value. -/
def utf16Units (cp : Nat) : List Nat :=
  if cp < 0x10000 then [cp]
  else [0xD800 + (cp - 0x10000) / 0x400, 0xDC00 + (cp - 0x10000) % 0x400]

/-- The JavaScript string written as a literal in the source. -/
def js (s : String) : JSString :=
  s.toList.flatMap (fun ch => utf16Units ch.toNat)

/-- The method `String.prototype.slice(start, stop)` for non-negative integer arguments. -/
def slice (s : JSString) (start stop : Nat) : JSString :=
  (s.drop start).take (stop - start)

/-- Decimal rendering of a non-negative integer, as in a template literal. -/
def natToJS (n : Nat) : JSString :=
  (Nat.toDigits 10 n).map Char.toNat

/-- A code unit in the high-surrogate range. -/
def isHighSurrogate (u : Nat) : Bool := 0xD800 ≤ u && u ≤ 0xDBFF

/-- A code unit in the low-surrogate range. -/
def isLowSurrogate (u : Nat) : Bool := 0xDC00 ≤ u && u ≤ 0xDFFF

/-- One lower-case hexadecimal digit as a code unit. -/
def hexDigit (d : Nat) : Nat := if d < 10 then 48 + d else 87 + d

/-- The escape `\uXXXX` of a code unit. -/
def unicodeEscape (u : Nat) : JSString :=
  [92, 117, hexDigit (u / 4096 % 16), hexDigit (u / 256 % 16), hexDigit (u / 16 % 16),
    hexDigit (u % 16)]

/-- The body of `QuoteJSONString`: escapes applied by `JSON.stringify` to a string value. -/
def quoteUnits : JSString → JSString
  | [] => []
  | u :: rest =>
    if u = 8 then [92, 98] ++ quoteUnits rest
    else if u = 9 then [92, 116] ++ quoteUnits rest
    else if u = 10 then [92, 110] ++ quoteUnits rest
    else if u = 12 then [92, 102] ++ quoteUnits rest
    else if u = 13 then [92, 114] ++ quoteUnits rest
    else if u = 34 then [92, 34] ++ quoteUnits rest
    else if u = 92 then [92, 92] ++ quoteUnits rest
    else if u < 32 then unicodeEscape u ++ quoteUnits rest
    else if isHighSurrogate u then
      match rest with
      | [] => unicodeEscape u
      | v :: rest2 =>
        if isLowSurrogate v then u :: v :: quoteUnits rest2
        else unicodeEscape u ++ quoteUnits (v :: rest2)
    else if isLowSurrogate u then unicodeEscape u ++ quoteUnits rest
    else u :: quoteUnits rest

/-- The result of `JSON.stringify` on a string value. -/
def stringifyString (s : JSString) : JSString :=
  [34] ++ quoteUnits s ++ [34]

/-- UTF-8 bytes of one code point. -/
def utf8Bytes (cp : Nat) : List Nat :=
  if cp < 0x80 then [cp]
  else if cp < 0x800 then [0xC0 + cp / 64, 0x80 + cp % 64]
  else if cp < 0x10000 then [0xE0 + cp / 4096, 0x80 + cp / 64 % 64, 0x80 + cp % 64]
  else [0xF0 + cp / 262144, 0x80 + cp / 4096 % 64, 0x80 + cp / 64 % 64, 0x80 + cp % 64]

/-- The bytes produced by `TextEncoder.prototype.encode`: UTF-8, with an unpaired surrogate
replaced by U+FFFD. -/
def encode : JSString → List Nat
  | [] => []
  | u :: rest =>
    if isHighSurrogate u then
      match rest with
      | [] => utf8Bytes 0xFFFD
      | v :: rest2 =>
        if isLowSurrogate v then
          utf8Bytes (0x10000 + (u - 0xD800) * 0x400 + (v - 0xDC00)) ++ encode rest2
        else utf8Bytes 0xFFFD ++ encode (v :: rest2)
    else if isLowSurrogate u then utf8Bytes 0xFFFD ++ encode rest
    else utf8Bytes u ++ encode rest

/-! ## Configuration -/

/-- The shape of the constant `CONFIG`. -/
structure Config where
  PROJECT_NAME : JSString
  PROJECT_VERSION : JSString
  API_MASTER_KEY : JSString
  UPSTREAM_URL : JSString
  ORIGIN_URL : JSString
  USER_AGENT : JSString
  MODELS : List JSString
  DEFAULT_MODEL : JSString

/-- The constant `CONFIG` of the worker. -/
def CONFIG : Config where
  PROJECT_NAME := js "perfectassistant-2api"
  PROJECT_VERSION := js "1.0.0"
  API_MASTER_KEY := js "1"
  UPSTREAM_URL := js "https://perfectassistant.ai/ai/free"
  ORIGIN_URL := js "https://perfectassistant.ai"
  USER_AGENT := js "Mozilla/5.0 (Windows NT 10.0; Win64; x64) AppleWebKit/537.36 (KHTML, like Gecko) Chrome/142.0.0.0 Safari/537.36"
  MODELS := [js "brainstorm-tool", js "blog-post-generator", js "social-media-post",
    js "email-writer", js "essay-writer", js "paragraph-writer"]
  DEFAULT_MODEL := js "brainstorm-tool"

/-! ## Streaming frames -/

/-- The `delta` member of a chunk choice; `content` is absent in the final chunk. -/
structure Delta where
  content : Option JSString
  deriving DecidableEq, Repr

/-- One element of the `choices` array of a chunk; `finish_reason` is `null` or a string. -/
structure ChunkChoice where
  index : Nat
  delta : Delta
  finish_reason : Option JSString
  deriving DecidableEq, Repr

/-- The objects `chunk` and `finalChunk`. -/
structure Chunk where
  id : JSString
  object : JSString
  created : Nat
  model : JSString
  choices : List ChunkChoice
  deriving DecidableEq, Repr

/-- The result of `JSON.stringify` on a `delta` object. -/
def stringifyDelta (d : Delta) : JSString :=
  match d.content with
  | some c => js "\x7b\"content\":" ++ stringifyString c ++ js "\x7d"
  | none => js "\x7b\x7d"

/-- The result of `JSON.stringify` on a chunk choice. -/
def stringifyChoice (c : ChunkChoice) : JSString :=
  js "\x7b\"index\":" ++ natToJS c.index ++ js ",\"delta\":" ++ stringifyDelta c.delta
    ++ js ",\"finish_reason\":"
    ++ (match c.finish_reason with
        | some r => stringifyString r
        | none => js "null")
    ++ js "\x7d"

/-- The result of `JSON.stringify` on a chunk. -/
def stringifyChunk (c : Chunk) : JSString :=
  js "\x7b\"id\":" ++ stringifyString c.id
    ++ js ",\"object\":" ++ stringifyString c.object
    ++ js ",\"created\":" ++ natToJS c.created
    ++ js ",\"model\":" ++ stringifyString c.model
    ++ js ",\"choices\":[" ++ List.intercalate (js ",") (c.choices.map stringifyChoice)
    ++ js "]\x7d"

/-- What the producer passes to `writer.write`: a chunk, or the end sentinel. -/
inductive Frame
  | data (chunk : Chunk)
  | done
  deriving DecidableEq, Repr

/-- The string handed to `encoder.encode` for a frame. -/
def Frame.text : Frame → JSString
  | .data chunk => js "data: " ++ stringifyChunk chunk ++ js "\n\n"
  | .done => js "data: [DONE]\n\n"

/-- The bytes written to the sink for a frame. -/
def Frame.bytes (f : Frame) : List Nat := encode f.text

/-! ## The pseudo-stream producer -/

/-- The variables captured by the asynchronous producer. -/
structure StreamJob where
  requestId : JSString
  created : Nat
  model : JSString
  content : JSString
  deriving DecidableEq, Repr

/-- The output sink: whether the write with a given index (0-based, counted over all writes of
the session) is fulfilled, and whether `close` is. -/
structure Sink where
  writeOk : Nat → Bool
  closeOk : Bool

/-- What the producer does, in order. -/
inductive Event
  | write (frame : Frame) (accepted : Bool)
  | sleep (ms : Nat)
  | close (accepted : Bool)
  deriving DecidableEq, Repr

/-- How the `for` loop ends: it ran through (after the given number of writes) or a write threw. -/
inductive LoopExit
  | completed (writes : Nat)
  | threw
  deriving DecidableEq, Repr

/-- The object `chunk` built in the loop body. -/
def deltaChunk (job : StreamJob) (chunkContent : JSString) : Chunk where
  id := job.requestId
  object := js "chat.completion.chunk"
  created := job.created
  model := job.model
  choices := [{ index := 0, delta := { content := some chunkContent }, finish_reason := none }]

/-- The object `finalChunk`. -/
def finalChunk (job : StreamJob) : Chunk where
  id := job.requestId
  object := js "chat.completion.chunk"
  created := job.created
  model := job.model
  choices := [{ index := 0, delta := { content := none }, finish_reason := some (js "stop") }]

/-- The loop `for (let i = 0; i < content.length; i += chunkSize)`, from cursor `i` with `w`
writes already made. The first argument bounds the number of iterations; `none` means the
bound was reached. -/
def streamLoop (sink : Sink) (job : StreamJob) (chunkSize delay : Nat) :
    Nat → Nat → Nat → Option (List Event × LoopExit)
  | 0, i, w => if i < job.content.length then none else some ([], .completed w)
  | fuel + 1, i, w =>
    if i < job.content.length then
      let chunkContent := slice job.content i (i + chunkSize)
      let chunk := deltaChunk job chunkContent
      if sink.writeOk w then
        match streamLoop sink job chunkSize delay fuel (i + chunkSize) (w + 1) with
        | none => none
        | some (evs, exit) =>
          some (Event.write (.data chunk) true :: Event.sleep delay :: evs, exit)
      else some ([Event.write (.data chunk) false], .threw)
    else some ([], .completed w)

/-- How the promise of the asynchronous producer settles. -/
inductive Settled
  | fulfilled
  | rejected
  deriving DecidableEq, Repr

/-- The trace of the producer and the state of its promise. -/
structure ProducerResult where
  events : List Event
  outcome : Settled
  deriving DecidableEq, Repr

/-- The events of the `try` block after the loop: the final chunk, then the sentinel. -/
def tryEvents (sink : Sink) (job : StreamJob) (evs : List Event) : LoopExit → List Event
  | .threw => evs
  | .completed w =>
    if sink.writeOk w then
      if sink.writeOk (w + 1) then
        evs ++ [Event.write (.data (finalChunk job)) true, Event.write .done true]
      else evs ++ [Event.write (.data (finalChunk job)) true, Event.write .done false]
    else evs ++ [Event.write (.data (finalChunk job)) false]

/-- The asynchronous producer `(async () => { try ... catch ... finally ... })()`: the error of
a rejected write is swallowed by `catch`, and `finally` closes the writer. -/
def producer (sink : Sink) (job : StreamJob) (chunkSize delay fuel : Nat) :
    Option ProducerResult :=
  match streamLoop sink job chunkSize delay fuel 0 0 with
  | none => none
  | some (evs, exit) =>
    some { events := tryEvents sink job evs exit ++ [Event.close sink.closeOk]
           outcome := if sink.closeOk then .fulfilled else .rejected }

/-- The producer with a bound that suffices for every positive chunk size. -/
def pseudoStream (sink : Sink) (job : StreamJob) (chunkSize delay : Nat) : Option ProducerResult :=
  producer sink job chunkSize delay job.content.length

/-- The producer as the worker runs it: `chunkSize = 5`, `delay = 20`. -/
def runStream (sink : Sink) (job : StreamJob) : Option ProducerResult :=
  pseudoStream sink job 5 20

/-! ## Requests and responses -/

/-- One element of the `messages` array of a request. -/
structure Message where
  role : JSString
  content : JSString
  deriving DecidableEq, Repr

/-- A parsed request body that follows the chat-completions schema. A missing `model` or
`messages` member is `none`; `stream` is the truthiness of the `stream` member. Bodies of any
other shape are covered by `RawRequest` and `handleChatCompletionsRaw`. -/
structure RequestData where
  model : Option JSString
  messages : Option (List Message)
  stream : Bool
  deriving DecidableEq, Repr

/-- What the handler reads from a request: the `Authorization` header (`none` when
`headers.get` returns `null`) and the outcome of `request.json()` (`none` when it throws). -/
structure Request where
  authorization : Option JSString
  body : Option RequestData
  deriving DecidableEq, Repr

/-- The values `verifyAuth` can return. -/
inductive AuthValue
  | bool (b : Bool)
  | null
  | str (s : JSString)
  deriving DecidableEq, Repr

/-- JavaScript truthiness of a value returned by `verifyAuth`. -/
def AuthValue.truthy : AuthValue → Bool
  | .bool b => b
  | .null => false
  | .str s => !s.isEmpty

/-- The function `verifyAuth`; the expression `auth && auth === ...` yields `auth` itself when
`auth` is `null` or the empty string. -/
def verifyAuth (request : Request) (validKey : JSString) : AuthValue :=
  if validKey = js "1" then .bool true
  else
    match request.authorization with
    | none => .null
    | some auth =>
      if auth.isEmpty then .str auth
      else .bool (auth == js "Bearer " ++ validKey)

/-- The member `error` of an error body. -/
structure ErrorDetail where
  message : JSString
  type : JSString
  code : JSString
  deriving DecidableEq, Repr

/-- The member `message` of a completion choice. -/
structure AssistantMessage where
  role : JSString
  content : JSString
  deriving DecidableEq, Repr

/-- One element of the `choices` array of a completion. -/
structure CompletionChoice where
  index : Nat
  message : AssistantMessage
  finish_reason : JSString
  deriving DecidableEq, Repr

/-- The member `usage` of a completion. -/
structure Usage where
  prompt_tokens : Nat
  completion_tokens : Nat
  total_tokens : Nat
  deriving DecidableEq, Repr

/-- The object `completion` of the non-streaming branch. -/
structure Completion where
  id : JSString
  object : JSString
  created : Nat
  model : JSString
  choices : List CompletionChoice
  usage : Usage
  deriving DecidableEq, Repr

/-- One entry of the model list. -/
structure ModelInfo where
  id : JSString
  object : JSString
  created : Nat
  owned_by : JSString
  deriving DecidableEq, Repr

/-- The body of a response, before `JSON.stringify`; `readable` is the readable side of the
transform stream the producer writes to. -/
inductive Body
  | error (error : ErrorDetail)
  | completion (completion : Completion)
  | models (object : JSString) (data : List ModelInfo)
  | readable
  deriving DecidableEq, Repr

/-- A `Response`: status (200 when not given), headers, body. -/
structure Response where
  status : Nat
  headers : List (JSString × JSString)
  body : Body
  deriving DecidableEq, Repr

/-- A property written after a spread in an object literal: a key that is already present keeps
its place and takes the new value, a new key goes last. -/
def setProperty (properties : List (JSString × JSString)) (name value : JSString) :
    List (JSString × JSString) :=
  if properties.any (fun p => p.1 == name) then
    properties.map (fun p => if p.1 == name then (name, value) else p)
  else properties ++ [(name, value)]

/-- The function `corsHeaders`: the given headers, then the three CORS entries. -/
def corsHeaders (headers : List (JSString × JSString)) : List (JSString × JSString) :=
  setProperty
    (setProperty
      (setProperty headers (js "Access-Control-Allow-Origin") (js "*"))
      (js "Access-Control-Allow-Methods") (js "GET, POST, OPTIONS"))
    (js "Access-Control-Allow-Headers") (js "Content-Type, Authorization")

/-- The function `createErrorResponse`. -/
def createErrorResponse (message : JSString) (status : Nat) (code : JSString) : Response where
  status := status
  headers := corsHeaders [(js "Content-Type", js "application/json")]
  body := .error { message := message, type := js "api_error", code := code }

/-! ## The upstream call -/

/-- The object `upstreamPayload`. -/
structure UpstreamPayload where
  tone : JSString
  language : JSString
  text : JSString
  chatId : JSString
  id : JSString
  deriving DecidableEq, Repr

/-- One call of `fetch` to the upstream service: the URL, the `Referer` header and the payload
(the other headers are constants). -/
structure UpstreamCall where
  url : JSString
  referer : JSString
  payload : UpstreamPayload
  deriving DecidableEq, Repr

/-- The upstream body as documented in the source: `{ response: "...", responses: ["..."] }`,
each member possibly missing. -/
structure UpstreamData where
  response : Option JSString
  responses : Option (List JSString)
  deriving DecidableEq, Repr

/-- The outcome of the upstream `fetch`: it throws (with a message), or it yields a response with
a status, the outcome of `response.text()` and the outcome of `response.json()` (each an error
message when it throws). -/
inductive FetchResult
  | threw (message : JSString)
  | response (status : Nat) (text : Except JSString JSString)
      (json : Except JSString UpstreamData)

/-- The values the handler draws from its environment: the two results of
`crypto.randomUUID()` in call order, and `Date.now()`. -/
structure Env where
  requestUUID : JSString
  chatUUID : JSString
  nowMs : Nat
  deriving DecidableEq, Repr

/-- The prompt: the content of the first user message of the reversed list, else `"Hello"`. -/
def extractPrompt (messages : List Message) : JSString :=
  match messages.reverse.find? (fun m => m.role == js "user") with
  | some lastUserMsg => lastUserMsg.content
  | none => js "Hello"

/-- The resolution of `content` from the upstream body. An empty string is falsy, and
`responses[0]` is read only when `responses` is present and non-empty. -/
def resolveContent (data : UpstreamData) : JSString :=
  match data.response with
  | some (u :: rest) => u :: rest
  | _ =>
    match data.responses with
    | some (first :: _) => first
    | _ => js "无法获取有效回复。"

/-- The object `completion` built in the non-streaming branch. -/
def buildCompletion (requestId : JSString) (created : Nat) (model prompt content : JSString) :
    Completion where
  id := requestId
  object := js "chat.completion"
  created := created
  model := model
  choices := [{ index := 0
                message := { role := js "assistant", content := content }
                finish_reason := js "stop" }]
  usage := { prompt_tokens := prompt.length
             completion_tokens := content.length
             total_tokens := prompt.length + content.length }

/-- The expression `requestData.model || CONFIG.DEFAULT_MODEL`; a missing or empty model name
is falsy. -/
def requestedModel (requestData : RequestData) : JSString :=
  match requestData.model with
  | some (u :: rest) => u :: rest
  | _ => CONFIG.DEFAULT_MODEL

/-- The expression `CONFIG.MODELS.includes(model) ? model : "brainstorm-tool"`. -/
def toolIdFor (model : JSString) : JSString :=
  if CONFIG.MODELS.contains model then model else js "brainstorm-tool"

/-- The call `fetch(CONFIG.UPSTREAM_URL, ...)` with the payload `upstreamPayload`. -/
def upstreamCallFor (env : Env) (toolId prompt : JSString) : UpstreamCall where
  url := CONFIG.UPSTREAM_URL
  referer := CONFIG.ORIGIN_URL ++ js "/iframe/" ++ toolId ++ js "?lang=en"
  payload := { tone := js "professional", language := js "chinese", text := prompt,
               chatId := env.chatUUID, id := toolId }

/-- What a call of `handleChatCompletions` amounts to: the response it returns, the upstream
calls it made, and the producer it started (not awaited), if any. -/
structure HandlerResult where
  response : Response
  upstreamCalls : List UpstreamCall
  started : Option StreamJob

/-- The function `handleChatCompletions`. -/
def handleChatCompletions (env : Env) (upstream : UpstreamCall → FetchResult)
    (request : Request) (apiKey : JSString) : HandlerResult :=
  if !(verifyAuth request apiKey).truthy then
    ⟨createErrorResponse (js "未授权 (Unauthorized)") 401 (js "unauthorized"), [], none⟩
  else
    match request.body with
    | none => ⟨createErrorResponse (js "无效的 JSON 请求体") 400 (js "invalid_json"), [], none⟩
    | some requestData =>
      let messages := requestData.messages.getD []
      if messages.length = 0 then
        ⟨createErrorResponse (js "messages 不能为空") 400 (js "invalid_request"), [], none⟩
      else
        let prompt := extractPrompt messages
        let model := requestedModel requestData
        let toolId := toolIdFor model
        let requestId := js "chatcmpl-" ++ env.requestUUID
        let created := env.nowMs / 1000
        let call := upstreamCallFor env toolId prompt
        match upstream call with
        | .threw message =>
          ⟨createErrorResponse (js "内部处理错误: " ++ message) 500 (js "internal_error"),
            [call], none⟩
        | .response status text json =>
          if !(200 ≤ status && status ≤ 299) then
            match text with
            | .error message =>
              ⟨createErrorResponse (js "内部处理错误: " ++ message) 500 (js "internal_error"),
                [call], none⟩
            | .ok errText =>
              ⟨createErrorResponse
                  (js "上游服务错误: " ++ natToJS status ++ js " - " ++ errText) 502
                  (js "upstream_error"), [call], none⟩
          else
            match json with
            | .error message =>
              ⟨createErrorResponse (js "内部处理错误: " ++ message) 500 (js "internal_error"),
                [call], none⟩
            | .ok data =>
              let content := resolveContent data
              if requestData.stream then
                ⟨{ status := 200
                   headers := corsHeaders
                     [(js "Content-Type", js "text/event-stream"),
                      (js "Cache-Control", js "no-cache"),
                      (js "Connection", js "keep-alive"),
                      (js "X-Worker-Trace-ID", requestId)]
                   body := .readable },
                  [call],
                  some { requestId := requestId, created := created, model := model,
                         content := content }⟩
              else
                ⟨{ status := 200
                   headers := corsHeaders
                     [(js "Content-Type", js "application/json"),
                      (js "X-Worker-Trace-ID", requestId)]
                   body := .completion (buildCompletion requestId created model prompt content) },
                  [call], none⟩

/-- The function `handleModels`. -/
def handleModels (request : Request) (apiKey : JSString) : Response :=
  if !(verifyAuth request apiKey).truthy then
    createErrorResponse (js "未授权") 401 (js "unauthorized")
  else
    { status := 200
      headers := corsHeaders [(js "Content-Type", js "application/json")]
      body := .models (js "list")
        (CONFIG.MODELS.map (fun id =>
          { id := id, object := js "model", created := 1677610602,
            owned_by := js "perfectassistant-2api" })) }

/-! ## Arbitrary request bodies

The handler up to the extraction of the prompt (lines 76 to 93 of the source), on whatever
`request.json()` yields: any JSON value, `null` included, with a `messages` member of any type
holding elements of any type. -/

/-- A number produced by `JSON.parse`: a finite value, negative zero, or an infinity (from a
literal out of range). -/
inductive JSNumber
  | finite (value : ℚ)
  | negZero
  | posInf
  | negInf

/-- The numbers equal to `0` under `===`, which are also the falsy ones. -/
def JSNumber.isZero : JSNumber → Bool
  | .finite value => value == 0
  | .negZero => true
  | .posInf => false
  | .negInf => false

/-- A value produced by `JSON.parse`. The members of an object are its own properties, each name
once. -/
inductive JSON
  | null
  | bool (b : Bool)
  | num (n : JSNumber)
  | str (s : JSString)
  | arr (items : List JSON)
  | obj (members : List (JSString × JSON))

/-- JavaScript truthiness of a parsed value. -/
def JSON.truthy : JSON → Bool
  | .null => false
  | .bool b => b
  | .num n => !n.isZero
  | .str s => !s.isEmpty
  | .arr _ => true
  | .obj _ => true

/-- An exception that escapes the handler. -/
inductive JSError
  | typeError
  deriving DecidableEq, Repr

/-- The property read `value.name` for a name that no built-in prototype defines (`messages`,
`role`, `content`): it throws on `null`, yields the own property of an object, and `undefined`
(`none`) on every other value. -/
def JSON.member (name : JSString) : JSON → Except JSError (Option JSON)
  | .null => .error .typeError
  | .obj members => .ok (members.lookup name)
  | _ => .ok none

/-- The test `messages.length === 0`: the length of an array or a string, the own property
`length` of an object, `undefined` on a boolean or a number; it throws on `null`. -/
def lengthIsZero : JSON → Except JSError Bool
  | .null => .error .typeError
  | .arr items => .ok items.isEmpty
  | .str s => .ok s.isEmpty
  | .obj members =>
    match members.lookup (js "length") with
    | some (.num n) => .ok n.isZero
    | _ => .ok false
  | _ => .ok false

/-- The call `items.find(m => m.role === 'user')`: the first element whose `role` is the string
"user"; reading `role` of a `null` element throws. -/
def findUser : List JSON → Except JSError (Option JSON)
  | [] => .ok none
  | .null :: _ => .error .typeError
  | .obj members :: rest =>
    match members.lookup (js "role") with
    | some (.str role) => if role = js "user" then .ok (some (.obj members)) else findUser rest
    | _ => findUser rest
  | _ :: rest => findUser rest

/-- What the handler reads from a request when the body may be any JSON value: the
`Authorization` header and the outcome of `request.json()` (`none` when it throws). -/
structure RawRequest where
  authorization : Option JSString
  body : Option JSON

/-- How a call of the handler ends: it returns, or an exception escapes it. -/
inductive RawOutcome
  | returned (result : HandlerResult)
  | threw (error : JSError)

/-- The function `handleChatCompletions` on an arbitrary parsed body, up to the extraction of the
prompt; `rest` stands for the remainder of the function, which receives the request data and the
prompt (`none` when the prompt is `undefined`). Nothing before `rest` is inside a `try` except
`request.json()`. -/
def handleChatCompletionsRaw (rest : JSON → Option JSON → RawOutcome) (request : RawRequest)
    (apiKey : JSString) : RawOutcome :=
  if !(verifyAuth ⟨request.authorization, none⟩ apiKey).truthy then
    .returned ⟨createErrorResponse (js "未授权 (Unauthorized)") 401 (js "unauthorized"), [], none⟩
  else
    match request.body with
    | none =>
      .returned ⟨createErrorResponse (js "无效的 JSON 请求体") 400 (js "invalid_json"), [], none⟩
    | some requestData =>
      match requestData.member (js "messages") with
      | .error e => .threw e
      | .ok value =>
        let messages : JSON :=
          match value with
          | some v => if v.truthy then v else .arr []
          | none => .arr []
        match lengthIsZero messages with
        | .error e => .threw e
        | .ok true =>
          .returned ⟨createErrorResponse (js "messages 不能为空") 400 (js "invalid_request"),
            [], none⟩
        | .ok false =>
          match messages with
          | .arr items =>
            match findUser items.reverse with
            | .error e => .threw e
            | .ok none => rest requestData (some (.str (js "Hello")))
            | .ok (some lastUserMsg) =>
              match lastUserMsg.member (js "content") with
              | .error e => .threw e
              | .ok prompt => rest requestData prompt
          | _ => .threw .typeError

/-- A message as a parsed value. -/
def Message.toJSON (m : Message) : JSON :=
  .obj [(js "role", .str m.role), (js "content", .str m.content)]

/-- A schema-conforming body as a parsed value. -/
def RequestData.toJSON (requestData : RequestData) : JSON :=
  .obj
    ((match requestData.model with
      | some model => [(js "model", JSON.str model)]
      | none => [])
    ++ (match requestData.messages with
      | some messages => [(js "messages", JSON.arr (messages.map Message.toJSON))]
      | none => [])
    ++ [(js "stream", JSON.bool requestData.stream)])

/-- A schema-conforming request as a request with an arbitrary body. -/
def Request.toRaw (request : Request) : RawRequest where
  authorization := request.authorization
  body := request.body.map RequestData.toJSON

/-! ## Observations on a trace -/

/-- The frame of a write event, whether the sink accepted it or not. -/
def Event.attempted : Event → Option Frame
  | .write f _ => some f
  | _ => none

/-- The frame of a write event that the sink accepted. -/
def Event.delivered : Event → Option Frame
  | .write f true => some f
  | _ => none

/-- The frames passed to `writer.write`, in order. -/
def attemptedFrames (evs : List Event) : List Frame := evs.filterMap Event.attempted

/-- The frames whose write was fulfilled, in order. -/
def deliveredFrames (evs : List Event) : List Frame := evs.filterMap Event.delivered

/-- The substring carried by a delta frame: one choice, `finish_reason` null, a delta with
content. -/
def Frame.deltaContent : Frame → Option JSString
  | .data c =>
    match c.choices with
    | [ch] =>
      match ch.finish_reason with
      | none => ch.delta.content
      | some _ => none
    | _ => none
  | .done => none

/-- A final frame: one choice with an empty delta and `finish_reason` equal to `"stop"`. -/
def Frame.isFinal : Frame → Bool
  | .data c =>
    match c.choices with
    | [ch] => ch.delta.content.isNone && ch.finish_reason == some (js "stop")
    | _ => false
  | .done => false

/-- The sentinel frame. -/
def Frame.isDone : Frame → Bool
  | .done => true
  | .data _ => false

/-- A call of `writer.close`. -/
def Event.isClose : Event → Bool
  | .close _ => true
  | _ => false

/-- The contents of the delivered delta frames, in emission order. -/
def deltaContents (evs : List Event) : List JSString :=
  (deliveredFrames evs).filterMap Frame.deltaContent

/-- The frame written by loop iteration `k` (0-based). -/
def deltaFrame (job : StreamJob) (chunkSize k : Nat) : Frame :=
  .data (deltaChunk job (slice job.content (k * chunkSize) (k * chunkSize + chunkSize)))

/-- The events of `m` accepted loop iterations starting with iteration `k`. -/
def deltaEvents (job : StreamJob) (chunkSize delay k m : Nat) : List Event :=
  (List.range' k m).flatMap
    (fun j => [Event.write (deltaFrame job chunkSize j) true, Event.sleep delay])

/-- The frames of an undisturbed session: one per loop iteration, the final chunk, the
sentinel. -/
def fullFrames (job : StreamJob) (chunkSize : Nat) : List Frame :=
  (List.range ((job.content.length + chunkSize - 1) / chunkSize)).map (deltaFrame job chunkSize)
    ++ [.data (finalChunk job), .done]

/-! ## The loop, characterised -/

theorem lt_numChunks_iff {L c : Nat} (hc : 0 < c) (k : Nat) :
    k < (L + c - 1) / c ↔ k * c < L := by
  rw [Nat.lt_iff_add_one_le, Nat.le_div_iff_mul_le hc, Nat.add_mul]
  omega

theorem numChunks_le_length {L c : Nat} (hc : 0 < c) : (L + c - 1) / c ≤ L := by
  rw [Nat.div_le_iff_le_mul_add_pred hc]
  have : L ≤ c * L := Nat.le_mul_of_pos_left L hc
  omega

theorem length_le_numChunks_mul {L c : Nat} (hc : 0 < c) : L ≤ (L + c - 1) / c * c := by
  by_contra hcon
  have := (lt_numChunks_iff (L := L) hc ((L + c - 1) / c)).2 (by omega)
  omega

theorem ceil_div_eq (L c : Nat) (hc : 0 < c) :
    ⌈(L : ℚ) / (c : ℚ)⌉₊ = (L + c - 1) / c := by
  have hcq : (0 : ℚ) < (c : ℚ) := by exact_mod_cast hc
  apply le_antisymm
  · rw [Nat.ceil_le, div_le_iff₀ hcq]
    exact_mod_cast length_le_numChunks_mul (L := L) hc
  · by_contra hcon
    push_neg at hcon
    have h1 : ⌈(L : ℚ) / (c : ℚ)⌉₊ * c < L := (lt_numChunks_iff hc _).1 hcon
    have h2 : (L : ℚ) / (c : ℚ) ≤ (⌈(L : ℚ) / (c : ℚ)⌉₊ : ℚ) := Nat.le_ceil _
    rw [div_le_iff₀ hcq] at h2
    have h3 : (L : ℚ) ≤ ((⌈(L : ℚ) / (c : ℚ)⌉₊ * c : ℕ) : ℚ) := by push_cast; exact h2
    have h4 : L ≤ ⌈(L : ℚ) / (c : ℚ)⌉₊ * c := by exact_mod_cast h3
    omega

theorem deltaEvents_succ (job : StreamJob) (c d k m : Nat) :
    deltaEvents job c d k (m + 1) =
      Event.write (deltaFrame job c k) true :: Event.sleep d :: deltaEvents job c d (k + 1) m := by
  simp [deltaEvents, List.range'_succ]

theorem streamLoop_accept (sink : Sink) (job : StreamJob) (c d : Nat) (hc : 0 < c) :
    ∀ (fuel k : Nat), k ≤ (job.content.length + c - 1) / c →
      (job.content.length + c - 1) / c - k ≤ fuel →
      (∀ j, k ≤ j → j < (job.content.length + c - 1) / c → sink.writeOk j = true) →
      streamLoop sink job c d fuel (k * c) k =
        some (deltaEvents job c d k ((job.content.length + c - 1) / c - k),
          .completed ((job.content.length + c - 1) / c)) := by
  intro fuel
  induction fuel with
  | zero =>
    intro k hk hf _
    have hkn : k = (job.content.length + c - 1) / c := by omega
    have hnot : ¬ k * c < job.content.length := by
      rw [← lt_numChunks_iff hc]; omega
    simp [streamLoop, hnot, deltaEvents, ← hkn]
  | succ fuel ih =>
    intro k hk hf hs
    by_cases hlt : k * c < job.content.length
    · have hkn : k < (job.content.length + c - 1) / c := (lt_numChunks_iff hc k).2 hlt
      have hrec := ih (k + 1) hkn (by omega) (fun j hj hjn => hs j (by omega) hjn)
      have hidx : k * c + c = (k + 1) * c := by rw [Nat.add_mul, Nat.one_mul]
      have hm : (job.content.length + c - 1) / c - k =
          ((job.content.length + c - 1) / c - (k + 1)) + 1 := by omega
      rw [hm, deltaEvents_succ]
      simp [streamLoop, hlt, hs k (Nat.le_refl k) hkn, hidx, hrec, deltaFrame]
    · have hkn : k = (job.content.length + c - 1) / c := by
        have := (lt_numChunks_iff (L := job.content.length) hc k).not.2 hlt
        omega
      simp [streamLoop, hlt, deltaEvents, ← hkn]

theorem streamLoop_reject (sink : Sink) (job : StreamJob) (c d : Nat) (hc : 0 < c) :
    ∀ (fuel k m : Nat), k ≤ m → m < (job.content.length + c - 1) / c →
      m - k < fuel →
      (∀ j, k ≤ j → j < m → sink.writeOk j = true) → sink.writeOk m = false →
      streamLoop sink job c d fuel (k * c) k =
        some (deltaEvents job c d k (m - k) ++ [Event.write (deltaFrame job c m) false],
          .threw) := by
  intro fuel
  induction fuel with
  | zero => intro k m _ _ hf; omega
  | succ fuel ih =>
    intro k m hkm hmn hf hs hrej
    have hlt : k * c < job.content.length := (lt_numChunks_iff hc k).1 (by omega)
    rcases Nat.eq_or_lt_of_le hkm with heq | hlt2
    · subst heq
      simp [streamLoop, hlt, hrej, deltaEvents, deltaFrame]
    · have hrec := ih (k + 1) m hlt2 hmn (by omega) (fun j hj hjm => hs j (by omega) hjm) hrej
      have hidx : k * c + c = (k + 1) * c := by rw [Nat.add_mul, Nat.one_mul]
      have hm : m - k = (m - (k + 1)) + 1 := by omega
      rw [hm, deltaEvents_succ]
      simp [streamLoop, hlt, hs k (Nat.le_refl k) hlt2, hidx, hrec, deltaFrame]

theorem streamLoop_total (sink : Sink) (job : StreamJob) (c d : Nat) (hc : 0 < c) :
    ∀ (fuel k : Nat), k ≤ (job.content.length + c - 1) / c →
      (job.content.length + c - 1) / c - k ≤ fuel →
      ∃ res, streamLoop sink job c d fuel (k * c) k = some res := by
  intro fuel
  induction fuel with
  | zero =>
    intro k hk hf
    have hnot : ¬ k * c < job.content.length := by
      rw [← lt_numChunks_iff hc]; omega
    simp [streamLoop, hnot]
  | succ fuel ih =>
    intro k hk hf
    by_cases hlt : k * c < job.content.length
    · have hkn : k < (job.content.length + c - 1) / c := (lt_numChunks_iff hc k).2 hlt
      obtain ⟨res, hres⟩ := ih (k + 1) hkn (by omega)
      have hidx : k * c + c = (k + 1) * c := by rw [Nat.add_mul, Nat.one_mul]
      cases hw : sink.writeOk k
      · simp [streamLoop, hlt, hw]
      · simp [streamLoop, hlt, hw, hidx, hres]
    · simp [streamLoop, hlt]

theorem streamLoop_frames (sink : Sink) (job : StreamJob) (c d : Nat) :
    ∀ (fuel i w : Nat) (res : List Event × LoopExit),
      streamLoop sink job c d fuel i w = some res →
      ∀ f ∈ attemptedFrames res.1, ∃ s, f = Frame.data (deltaChunk job s) := by
  intro fuel
  induction fuel with
  | zero =>
    intro i w res h f hf
    by_cases hlt : i < job.content.length
    · simp [streamLoop, hlt] at h
    · simp [streamLoop, hlt] at h
      subst h
      simp [attemptedFrames] at hf
  | succ fuel ih =>
    intro i w res h f hf
    by_cases hlt : i < job.content.length
    · cases hw : sink.writeOk w
      · simp [streamLoop, hlt, hw] at h
        subst h
        simp [attemptedFrames, Event.attempted] at hf
        exact ⟨_, hf⟩
      · cases hrec : streamLoop sink job c d fuel (i + c) (w + 1) with
        | none => simp [streamLoop, hlt, hw, hrec] at h
        | some res2 =>
          simp [streamLoop, hlt, hw, hrec] at h
          subst h
          simp only [attemptedFrames, List.filterMap_cons, Event.attempted, List.mem_cons] at hf
          rcases hf with hf | hf
          · exact ⟨_, hf⟩
          · exact ih (i + c) (w + 1) res2 hrec f hf
    · simp [streamLoop, hlt] at h
      subst h
      simp [attemptedFrames] at hf

/-! ## The producer, characterised -/

/-- The trace of a session whose sink accepts every write of the session. -/
theorem pseudoStream_accept (sink : Sink) (job : StreamJob) (c d : Nat) (hc : 0 < c)
    (hs : ∀ j, j ≤ (job.content.length + c - 1) / c + 1 → sink.writeOk j = true) :
    pseudoStream sink job c d =
      some { events := deltaEvents job c d 0 ((job.content.length + c - 1) / c)
                ++ [Event.write (.data (finalChunk job)) true, Event.write .done true,
                    Event.close sink.closeOk]
             outcome := if sink.closeOk then .fulfilled else .rejected } := by
  have h := streamLoop_accept sink job c d hc job.content.length 0 (Nat.zero_le _)
    (by have := numChunks_le_length (L := job.content.length) hc; omega)
    (fun j _ hj => hs j (by omega))
  simp only [Nat.zero_mul, Nat.sub_zero] at h
  simp [pseudoStream, producer, h, tryEvents, hs ((job.content.length + c - 1) / c) (by omega),
    hs ((job.content.length + c - 1) / c + 1) (Nat.le_refl _)]

/-- The trace of a session whose sink rejects the write of loop iteration `m`. -/
theorem pseudoStream_reject_delta (sink : Sink) (job : StreamJob) (c d m : Nat) (hc : 0 < c)
    (hm : m < (job.content.length + c - 1) / c)
    (hs : ∀ j, j < m → sink.writeOk j = true) (hrej : sink.writeOk m = false) :
    pseudoStream sink job c d =
      some { events := deltaEvents job c d 0 m
                ++ [Event.write (deltaFrame job c m) false, Event.close sink.closeOk]
             outcome := if sink.closeOk then .fulfilled else .rejected } := by
  have h := streamLoop_reject sink job c d hc job.content.length 0 m (Nat.zero_le _) hm
    (by have := numChunks_le_length (L := job.content.length) hc; omega)
    (fun j _ hj => hs j hj) hrej
  simp only [Nat.zero_mul, Nat.sub_zero] at h
  simp [pseudoStream, producer, h, tryEvents]

/-- The trace of a session whose sink rejects the write of the final chunk. -/
theorem pseudoStream_reject_final (sink : Sink) (job : StreamJob) (c d : Nat) (hc : 0 < c)
    (hs : ∀ j, j < (job.content.length + c - 1) / c → sink.writeOk j = true)
    (hrej : sink.writeOk ((job.content.length + c - 1) / c) = false) :
    pseudoStream sink job c d =
      some { events := deltaEvents job c d 0 ((job.content.length + c - 1) / c)
                ++ [Event.write (.data (finalChunk job)) false, Event.close sink.closeOk]
             outcome := if sink.closeOk then .fulfilled else .rejected } := by
  have h := streamLoop_accept sink job c d hc job.content.length 0 (Nat.zero_le _)
    (by have := numChunks_le_length (L := job.content.length) hc; omega)
    (fun j _ hj => hs j hj)
  simp only [Nat.zero_mul, Nat.sub_zero] at h
  simp [pseudoStream, producer, h, tryEvents, hrej]

/-- The trace of a session whose sink rejects the write of the sentinel. -/
theorem pseudoStream_reject_done (sink : Sink) (job : StreamJob) (c d : Nat) (hc : 0 < c)
    (hs : ∀ j, j ≤ (job.content.length + c - 1) / c → sink.writeOk j = true)
    (hrej : sink.writeOk ((job.content.length + c - 1) / c + 1) = false) :
    pseudoStream sink job c d =
      some { events := deltaEvents job c d 0 ((job.content.length + c - 1) / c)
                ++ [Event.write (.data (finalChunk job)) true, Event.write .done false,
                    Event.close sink.closeOk]
             outcome := if sink.closeOk then .fulfilled else .rejected } := by
  have h := streamLoop_accept sink job c d hc job.content.length 0 (Nat.zero_le _)
    (by have := numChunks_le_length (L := job.content.length) hc; omega)
    (fun j _ hj => hs j (by omega))
  simp only [Nat.zero_mul, Nat.sub_zero] at h
  simp [pseudoStream, producer, h, tryEvents, hs ((job.content.length + c - 1) / c) (by omega),
    hrej]

theorem pseudoStream_total (sink : Sink) (job : StreamJob) (c d : Nat) (hc : 0 < c) :
    ∃ r, pseudoStream sink job c d = some r := by
  obtain ⟨res, hres⟩ := streamLoop_total sink job c d hc job.content.length 0 (Nat.zero_le _)
    (by have := numChunks_le_length (L := job.content.length) hc; omega)
  simp only [Nat.zero_mul] at hres
  simp [pseudoStream, producer, hres]

/-! ## Observations on the events of the loop -/

theorem attemptedFrames_append (a b : List Event) :
    attemptedFrames (a ++ b) = attemptedFrames a ++ attemptedFrames b := by
  simp [attemptedFrames]

theorem deliveredFrames_append (a b : List Event) :
    deliveredFrames (a ++ b) = deliveredFrames a ++ deliveredFrames b := by
  simp [deliveredFrames]

theorem attemptedFrames_deltaEvents (job : StreamJob) (c d : Nat) :
    ∀ (m k : Nat), attemptedFrames (deltaEvents job c d k m) =
      (List.range' k m).map (deltaFrame job c) := by
  intro m
  induction m with
  | zero => intro k; simp [deltaEvents, attemptedFrames]
  | succ m ih =>
    intro k
    have h := ih (k + 1)
    rw [deltaEvents_succ, List.range'_succ]
    simp only [attemptedFrames] at h ⊢
    simp [Event.attempted, h]

theorem deliveredFrames_deltaEvents (job : StreamJob) (c d : Nat) :
    ∀ (m k : Nat), deliveredFrames (deltaEvents job c d k m) =
      (List.range' k m).map (deltaFrame job c) := by
  intro m
  induction m with
  | zero => intro k; simp [deltaEvents, deliveredFrames]
  | succ m ih =>
    intro k
    have h := ih (k + 1)
    rw [deltaEvents_succ, List.range'_succ]
    simp only [deliveredFrames] at h ⊢
    simp [Event.delivered, h]

theorem frames_of_deltaEvents (job : StreamJob) (c d m : Nat) :
    attemptedFrames (deltaEvents job c d 0 m) = (List.range m).map (deltaFrame job c) ∧
    deliveredFrames (deltaEvents job c d 0 m) = (List.range m).map (deltaFrame job c) := by
  rw [attemptedFrames_deltaEvents, deliveredFrames_deltaEvents, ← List.range_eq_range']
  exact ⟨rfl, rfl⟩

theorem deltaContent_deltaFrame (job : StreamJob) (c k : Nat) :
    (deltaFrame job c k).deltaContent = some (slice job.content (k * c) (k * c + c)) := by
  simp [deltaFrame, deltaChunk, Frame.deltaContent]

theorem deltaContent_finalChunk (job : StreamJob) :
    (Frame.data (finalChunk job)).deltaContent = none := by
  simp [finalChunk, Frame.deltaContent]

theorem isFinal_deltaFrame (job : StreamJob) (c k : Nat) :
    (deltaFrame job c k).isFinal = false := by
  simp [deltaFrame, deltaChunk, Frame.isFinal]

theorem isDone_deltaFrame (job : StreamJob) (c k : Nat) :
    (deltaFrame job c k).isDone = false := by
  simp [deltaFrame, Frame.isDone]

theorem isFinal_finalChunk (job : StreamJob) :
    (Frame.data (finalChunk job)).isFinal = true := by
  simp [finalChunk, Frame.isFinal]

theorem deltaFrame_props (job : StreamJob) (c : Nat) (l : List Nat) :
    ∀ f ∈ l.map (deltaFrame job c), f.isFinal = false ∧ f.isDone = false := by
  intro f hf
  obtain ⟨k, _, rfl⟩ := List.mem_map.1 hf
  exact ⟨isFinal_deltaFrame job c k, isDone_deltaFrame job c k⟩

theorem filter_isClose_deltaEvents (job : StreamJob) (c d : Nat) :
    ∀ (m k : Nat), (deltaEvents job c d k m).filter Event.isClose = [] := by
  intro m
  induction m with
  | zero => intro k; simp [deltaEvents]
  | succ m ih =>
    intro k
    rw [deltaEvents_succ]
    simp [Event.isClose, ih (k + 1)]

theorem pseudoStream_frames (sink : Sink) (job : StreamJob) (c d : Nat) (r : ProducerResult)
    (h : pseudoStream sink job c d = some r) :
    ∀ f ∈ attemptedFrames r.events,
      f = Frame.done ∨ f = Frame.data (finalChunk job) ∨
        ∃ s, f = Frame.data (deltaChunk job s) := by
  intro f hf
  unfold pseudoStream producer at h
  cases hloop : streamLoop sink job c d job.content.length 0 0 with
  | none => simp [hloop] at h
  | some res =>
    obtain ⟨evs, exit⟩ := res
    simp only [hloop, Option.some.injEq] at h
    subst h
    have hloopf := streamLoop_frames sink job c d _ _ _ _ hloop
    simp only [attemptedFrames_append] at hf
    rcases List.mem_append.1 hf with hf | hf
    · cases exit with
      | threw => exact Or.inr (Or.inr (hloopf f hf))
      | completed w =>
        simp only [tryEvents] at hf
        split at hf
        · split at hf
          · rw [attemptedFrames_append] at hf
            rcases List.mem_append.1 hf with hf | hf
            · exact Or.inr (Or.inr (hloopf f hf))
            · simp [attemptedFrames, Event.attempted] at hf
              rcases hf with hf | hf
              · exact Or.inr (Or.inl hf)
              · exact Or.inl hf
          · rw [attemptedFrames_append] at hf
            rcases List.mem_append.1 hf with hf | hf
            · exact Or.inr (Or.inr (hloopf f hf))
            · simp [attemptedFrames, Event.attempted] at hf
              rcases hf with hf | hf
              · exact Or.inr (Or.inl hf)
              · exact Or.inl hf
        · rw [attemptedFrames_append] at hf
          rcases List.mem_append.1 hf with hf | hf
          · exact Or.inr (Or.inr (hloopf f hf))
          · simp [attemptedFrames, Event.attempted] at hf
            exact Or.inr (Or.inl hf)
    · simp [attemptedFrames, Event.attempted] at hf

theorem slice_eq_take_drop (t : JSString) (k c : Nat) :
    slice t (k * c) (k * c + c) = (t.drop (k * c)).take c := by
  simp [slice]

theorem slice_min (t : JSString) (k c : Nat) :
    slice t (k * c) (min ((k + 1) * c) t.length) = slice t (k * c) (k * c + c) := by
  have hidx : (k + 1) * c = k * c + c := by rw [Nat.add_mul, Nat.one_mul]
  by_cases h : (k + 1) * c ≤ t.length
  · rw [Nat.min_eq_left h, hidx]
  · rw [Nat.min_eq_right (by omega)]
    simp only [slice]
    rw [List.take_of_length_le (by simp), List.take_of_length_le (by simp; omega)]

theorem flatten_slices (t : JSString) (c : Nat) :
    ∀ n : Nat, ((List.range n).map (fun k => slice t (k * c) (k * c + c))).flatten =
      t.take (n * c) := by
  intro n
  induction n with
  | zero => simp
  | succ n ih =>
    rw [List.range_succ, List.map_append, List.flatten_append, ih]
    simp only [List.map_cons, List.map_nil, List.flatten_cons, List.flatten_nil,
      List.append_nil, slice_eq_take_drop]
    rw [Nat.add_mul, Nat.one_mul, List.take_add]

/-- The contents of the delta frames of an undisturbed session. -/
theorem deltaContents_complete (sink : Sink) (job : StreamJob) (c d : Nat) (b1 b2 : Bool) :
    deltaContents (deltaEvents job c d 0 ((job.content.length + c - 1) / c)
        ++ [Event.write (.data (finalChunk job)) b1, Event.write .done b2,
            Event.close sink.closeOk]) =
      (List.range ((job.content.length + c - 1) / c)).map
        (fun k => slice job.content (k * c) (k * c + c)) := by
  unfold deltaContents
  rw [deliveredFrames_append, deliveredFrames_deltaEvents, List.filterMap_append,
    ← List.range_eq_range']
  have htail : List.filterMap Frame.deltaContent
      (deliveredFrames [Event.write (.data (finalChunk job)) b1, Event.write .done b2,
        Event.close sink.closeOk]) = [] := by
    cases b1 <;> cases b2 <;>
      simp [deliveredFrames, Event.delivered, Frame.deltaContent, finalChunk]
  rw [htail, List.append_nil, List.filterMap_map]
  have hfun : (Frame.deltaContent ∘ deltaFrame job c) =
      fun k => some (slice job.content (k * c) (k * c + c)) := by
    funext k; exact deltaContent_deltaFrame job c k
  rw [hfun]
  induction (List.range ((job.content.length + c - 1) / c)) with
  | nil => rfl
  | cons a l ih => simp [List.filterMap_cons, ih]

theorem fullFrames_take_le (job : StreamJob) (c m : Nat)
    (hm : m ≤ (job.content.length + c - 1) / c) :
    (fullFrames job c).take m = (List.range m).map (deltaFrame job c) := by
  unfold fullFrames
  rw [List.take_append_of_le_length (by simpa using hm), ← List.map_take, List.take_range,
    Nat.min_eq_left hm]

theorem fullFrames_take_succ (job : StreamJob) (c : Nat) :
    (fullFrames job c).take ((job.content.length + c - 1) / c + 1) =
      (List.range ((job.content.length + c - 1) / c)).map (deltaFrame job c)
        ++ [.data (finalChunk job)] := by
  unfold fullFrames
  rw [List.take_append_eq_append_take]
  simp

theorem fullFrames_take_all (job : StreamJob) (c : Nat) :
    (fullFrames job c).take ((job.content.length + c - 1) / c + 1 + 1) = fullFrames job c := by
  apply List.take_of_length_le
  simp [fullFrames]

/-! ## The handler, case by case -/

/-- The answer to a request that is not authorised. -/
theorem handleChatCompletions_unauthorized (env : Env) (upstream : UpstreamCall → FetchResult)
    (request : Request) (apiKey : JSString)
    (hauth : (verifyAuth request apiKey).truthy = false) :
    handleChatCompletions env upstream request apiKey =
      ⟨createErrorResponse (js "未授权 (Unauthorized)") 401 (js "unauthorized"), [], none⟩ := by
  unfold handleChatCompletions
  simp [hauth]

/-- The answer to an authorised request whose body is not parseable JSON. -/
theorem handleChatCompletions_invalid_json (env : Env) (upstream : UpstreamCall → FetchResult)
    (request : Request) (apiKey : JSString)
    (hauth : (verifyAuth request apiKey).truthy = true) (hbody : request.body = none) :
    handleChatCompletions env upstream request apiKey =
      ⟨createErrorResponse (js "无效的 JSON 请求体") 400 (js "invalid_json"), [], none⟩ := by
  unfold handleChatCompletions
  simp [hauth, hbody]

/-- The answer to an authorised request whose message list is missing or empty. -/
theorem handleChatCompletions_invalid_request (env : Env)
    (upstream : UpstreamCall → FetchResult) (request : Request) (apiKey : JSString)
    (requestData : RequestData) (hauth : (verifyAuth request apiKey).truthy = true)
    (hbody : request.body = some requestData)
    (hmsgs : requestData.messages = none ∨ requestData.messages = some []) :
    handleChatCompletions env upstream request apiKey =
      ⟨createErrorResponse (js "messages 不能为空") 400 (js "invalid_request"), [], none⟩ := by
  have hlen : (requestData.messages.getD []).length = 0 := by
    rcases hmsgs with h | h <;> simp [h]
  unfold handleChatCompletions
  simp only [hauth, hbody, hlen, Bool.not_true, Bool.false_eq_true, if_false, if_true]

/-- The result of the handler on an authorised request with a non-empty message list whose
upstream call succeeds. -/
theorem handleChatCompletions_ok (env : Env) (upstream : UpstreamCall → FetchResult)
    (request : Request) (apiKey : JSString) (requestData : RequestData)
    (messages : List Message) (status : Nat) (text : Except JSString JSString)
    (data : UpstreamData)
    (hauth : (verifyAuth request apiKey).truthy = true)
    (hbody : request.body = some requestData)
    (hmsgs : requestData.messages = some messages) (hne : messages ≠ [])
    (hup : upstream (upstreamCallFor env (toolIdFor (requestedModel requestData))
      (extractPrompt messages)) = FetchResult.response status text (.ok data))
    (hok : 200 ≤ status ∧ status ≤ 299) :
    handleChatCompletions env upstream request apiKey =
      if requestData.stream then
        ⟨{ status := 200
           headers := corsHeaders
             [(js "Content-Type", js "text/event-stream"),
              (js "Cache-Control", js "no-cache"),
              (js "Connection", js "keep-alive"),
              (js "X-Worker-Trace-ID", js "chatcmpl-" ++ env.requestUUID)]
           body := .readable },
          [upstreamCallFor env (toolIdFor (requestedModel requestData)) (extractPrompt messages)],
          some { requestId := js "chatcmpl-" ++ env.requestUUID, created := env.nowMs / 1000,
                 model := requestedModel requestData, content := resolveContent data }⟩
      else
        ⟨{ status := 200
           headers := corsHeaders
             [(js "Content-Type", js "application/json"),
              (js "X-Worker-Trace-ID", js "chatcmpl-" ++ env.requestUUID)]
           body := .completion (buildCompletion (js "chatcmpl-" ++ env.requestUUID)
             (env.nowMs / 1000) (requestedModel requestData) (extractPrompt messages)
             (resolveContent data)) },
          [upstreamCallFor env (toolIdFor (requestedModel requestData)) (extractPrompt messages)],
          none⟩ := by
  have hlen : messages.length ≠ 0 := by
    intro h; exact hne (List.length_eq_zero.1 h)
  unfold handleChatCompletions
  simp [hauth, hbody, hmsgs, hlen, hup, hok.1, hok.2]

/-- The upstream call made by the handler on an authorised request with a non-empty message
list, whatever the upstream answers. -/
theorem handleChatCompletions_calls (env : Env) (upstream : UpstreamCall → FetchResult)
    (request : Request) (apiKey : JSString) (requestData : RequestData)
    (messages : List Message)
    (hauth : (verifyAuth request apiKey).truthy = true)
    (hbody : request.body = some requestData)
    (hmsgs : requestData.messages = some messages) (hne : messages ≠ []) :
    (handleChatCompletions env upstream request apiKey).upstreamCalls =
      [upstreamCallFor env (toolIdFor (requestedModel requestData)) (extractPrompt messages)] := by
  have hlen : messages.length ≠ 0 := by
    intro h; exact hne (List.length_eq_zero.1 h)
  unfold handleChatCompletions
  simp only [hauth, hbody, hmsgs, Option.getD_some, hlen, Bool.not_true, Bool.false_eq_true,
    if_false]
  split
  · rfl
  · split
    · split <;> rfl
    · split
      · rfl
      · split <;> rfl

/-- The job started by the handler carries the request id, the creation time and the requested
model of the request. -/
theorem started_job (env : Env) (upstream : UpstreamCall → FetchResult) (request : Request)
    (apiKey : JSString) (requestData : RequestData) (job : StreamJob)
    (hbody : request.body = some requestData)
    (hstart : (handleChatCompletions env upstream request apiKey).started = some job) :
    job.requestId = js "chatcmpl-" ++ env.requestUUID ∧ job.created = env.nowMs / 1000 ∧
      job.model = requestedModel requestData := by
  unfold handleChatCompletions at hstart
  rw [hbody] at hstart
  simp only [] at hstart
  split at hstart
  · simp at hstart
  · split at hstart
    · simp at hstart
    · split at hstart
      · simp at hstart
      · split at hstart
        · split at hstart <;> simp at hstart
        · split at hstart
          · simp at hstart
          · split at hstart
            · simp only [Option.some.injEq] at hstart
              subst hstart
              exact ⟨rfl, rfl, rfl⟩
            · simp at hstart

theorem extractPrompt_last_user (pre post : List Message) (m : Message)
    (hm : m.role = js "user") (hpost : ∀ x ∈ post, x.role ≠ js "user") :
    extractPrompt (pre ++ m :: post) = m.content := by
  have hnone : post.reverse.find? (fun x => x.role == js "user") = none := by
    rw [List.find?_eq_none]
    intro x hx
    simpa using hpost x (List.mem_reverse.1 hx)
  unfold extractPrompt
  rw [List.reverse_append, List.reverse_cons, List.append_assoc, List.find?_append, hnone]
  simp [List.find?_cons, hm]

theorem extractPrompt_no_user (messages : List Message)
    (h : ∀ x ∈ messages, x.role ≠ js "user") :
    extractPrompt messages = js "Hello" := by
  have hnone : messages.reverse.find? (fun x => x.role == js "user") = none := by
    rw [List.find?_eq_none]
    intro x hx
    simpa using h x (List.mem_reverse.1 hx)
  unfold extractPrompt
  rw [hnone]

/-! ## A completed stream -/

/-- C1. For every text and every positive chunk size, when the sink accepts every write, the
pseudo-stream runs to completion and the concatenation of the contents of its delta frames,
in emission order, is the text. -/
theorem delta_contents_concat_eq_text (sink : Sink) (job : StreamJob) (chunkSize delay : Nat)
    (hc : 0 < chunkSize) (hsink : ∀ k, sink.writeOk k = true) :
    ∃ r, pseudoStream sink job chunkSize delay = some r ∧
      (deltaContents r.events).flatten = job.content := by
  refine ⟨_, pseudoStream_accept sink job chunkSize delay hc (fun j _ => hsink j), ?_⟩
  simp only []
  rw [deltaContents_complete, flatten_slices]
  exact List.take_of_length_le (length_le_numChunks_mul hc)

theorem delta_contents_concat_eq_text_witness :
    (0 < 5) ∧ (∀ k, (Sink.mk (fun _ => true) true).writeOk k = true) ∧
    ∃ r, pseudoStream (Sink.mk (fun _ => true) true)
        (StreamJob.mk (js "chatcmpl-1") 1700000000 (js "brainstorm-tool") (js "Hello World"))
        5 20 = some r ∧
      (deltaContents r.events).flatten = js "Hello World" :=
  ⟨by decide, fun _ => rfl,
    delta_contents_concat_eq_text (Sink.mk (fun _ => true) true)
      (StreamJob.mk (js "chatcmpl-1") 1700000000 (js "brainstorm-tool") (js "Hello World"))
      5 20 (by decide) (fun _ => rfl)⟩

/-- C2. For every text of length `L` and every positive chunk size `c`, when the sink accepts
every write the `k`-th delta frame carries the substring from `k * c` to
`min ((k + 1) * c) L`, there is no `k`-th delta frame once `k * c` reaches `L`, the slice of a
frame ends where the slice of the next one starts, and for the text "Hello World" with chunk
size 5 the delta frames carry "Hello", " Worl", "d". -/
theorem delta_frame_slices (sink : Sink) (job : StreamJob) (chunkSize delay : Nat)
    (hc : 0 < chunkSize) (hsink : ∀ k, sink.writeOk k = true) :
    ∃ r, pseudoStream sink job chunkSize delay = some r ∧
      (∀ k, (deltaContents r.events)[k]? =
        if k * chunkSize < job.content.length then
          some (slice job.content (k * chunkSize) (min ((k + 1) * chunkSize) job.content.length))
        else none) ∧
      (∀ k, (k + 1) * chunkSize < job.content.length →
        min ((k + 1) * chunkSize) job.content.length = (k + 1) * chunkSize) ∧
      (job.content = js "Hello World" → chunkSize = 5 →
        deltaContents r.events = [js "Hello", js " Worl", js "d"]) := by
  refine ⟨_, pseudoStream_accept sink job chunkSize delay hc (fun j _ => hsink j), ?_, ?_, ?_⟩
  · intro k
    simp only []
    rw [deltaContents_complete]
    by_cases hk : k * chunkSize < job.content.length
    · have hkn := (lt_numChunks_iff hc k).2 hk
      simp [hk, hkn, slice_min]
    · have hkn := (lt_numChunks_iff (L := job.content.length) hc k).not.2 hk
      simp [hk, Nat.le_of_not_lt hkn]
  · intro k hk
    exact Nat.min_eq_left (Nat.le_of_lt hk)
  · intro ht h5
    simp only []
    rw [deltaContents_complete, ht, h5]
    decide

theorem delta_frame_slices_witness :
    (0 < 5) ∧ (∀ k, (Sink.mk (fun _ => true) false).writeOk k = true) ∧
    ∃ r, pseudoStream (Sink.mk (fun _ => true) false)
        (StreamJob.mk (js "chatcmpl-2") 1700000001 (js "essay-writer") (js "Hello World"))
        5 20 = some r ∧
      (∀ k, (deltaContents r.events)[k]? =
        if k * 5 < (js "Hello World").length then
          some (slice (js "Hello World") (k * 5) (min ((k + 1) * 5) (js "Hello World").length))
        else none) ∧
      (∀ k, (k + 1) * 5 < (js "Hello World").length →
        min ((k + 1) * 5) (js "Hello World").length = (k + 1) * 5) ∧
      (js "Hello World" = js "Hello World" → 5 = 5 →
        deltaContents r.events = [js "Hello", js " Worl", js "d"]) :=
  ⟨by decide, fun _ => rfl,
    delta_frame_slices (Sink.mk (fun _ => true) false)
      (StreamJob.mk (js "chatcmpl-2") 1700000001 (js "essay-writer") (js "Hello World"))
      5 20 (by decide) (fun _ => rfl)⟩

/-- C3. For every text of length `L` and every positive chunk size `c`, a completed
pseudo-stream emits exactly `ceil (L / c)` delta frames, which is zero when `L = 0`. -/
theorem delta_frame_count (sink : Sink) (job : StreamJob) (chunkSize delay : Nat)
    (hc : 0 < chunkSize) (hsink : ∀ k, sink.writeOk k = true) :
    ∃ r, pseudoStream sink job chunkSize delay = some r ∧
      (deltaContents r.events).length = ⌈(job.content.length : ℚ) / (chunkSize : ℚ)⌉₊ ∧
      (job.content.length = 0 → (deltaContents r.events).length = 0) := by
  refine ⟨_, pseudoStream_accept sink job chunkSize delay hc (fun j _ => hsink j), ?_, ?_⟩
  · simp only []
    rw [deltaContents_complete, ceil_div_eq _ _ hc]
    simp
  · intro h0
    simp only []
    rw [deltaContents_complete, h0]
    have : (chunkSize - 1) / chunkSize = 0 := by
      apply Nat.div_eq_of_lt; omega
    simp [this]

theorem delta_frame_count_witness :
    (0 < 4) ∧ (∀ k, (Sink.mk (fun _ => true) true).writeOk k = true) ∧
    ∃ r, pseudoStream (Sink.mk (fun _ => true) true)
        (StreamJob.mk (js "chatcmpl-3") 1700000002 (js "email-writer") (js "Hello World"))
        4 20 = some r ∧
      (deltaContents r.events).length =
        ⌈(((js "Hello World").length : ℕ) : ℚ) / ((4 : ℕ) : ℚ)⌉₊ ∧
      ((js "Hello World").length = 0 → (deltaContents r.events).length = 0) :=
  ⟨by decide, fun _ => rfl,
    delta_frame_count (Sink.mk (fun _ => true) true)
      (StreamJob.mk (js "chatcmpl-3") 1700000002 (js "email-writer") (js "Hello World"))
      4 20 (by decide) (fun _ => rfl)⟩

/-- C4. For every text, the empty one included, the frames written by a completed
pseudo-stream are the delta frames, then the final frame (empty delta, `finish_reason`
"stop"), then the sentinel `data: [DONE]`: there is exactly one final frame and exactly one
sentinel, the final frame comes after every delta frame and immediately before the sentinel,
and the sentinel is the last frame written. -/
theorem final_frame_then_sentinel (sink : Sink) (job : StreamJob) (chunkSize delay : Nat)
    (hc : 0 < chunkSize) (hsink : ∀ k, sink.writeOk k = true) :
    ∃ r deltas finalFrame,
      pseudoStream sink job chunkSize delay = some r ∧
      attemptedFrames r.events = deltas ++ [finalFrame, Frame.done] ∧
      deliveredFrames r.events = deltas ++ [finalFrame, Frame.done] ∧
      (∀ f ∈ deltas, f.deltaContent.isSome = true ∧ f.isFinal = false ∧ f.isDone = false) ∧
      (job.content = [] → deltas = []) ∧
      finalFrame = Frame.data (finalChunk job) ∧
      (finalChunk job).choices =
        [{ index := 0, delta := { content := none }, finish_reason := some (js "stop") }] ∧
      finalFrame.isFinal = true ∧
      Frame.done.text = js "data: [DONE]\n\n" ∧
      ((deliveredFrames r.events).filter Frame.isFinal).length = 1 ∧
      ((deliveredFrames r.events).filter Frame.isDone).length = 1 ∧
      (deliveredFrames r.events).getLast? = some Frame.done := by
  have hfinal : ∀ l : List Nat, List.filter Frame.isFinal (l.map (deltaFrame job chunkSize)) = [] := by
    intro l
    rw [List.filter_eq_nil_iff]
    intro f hf
    obtain ⟨k, _, rfl⟩ := List.mem_map.1 hf
    simp [isFinal_deltaFrame]
  have hdone : ∀ l : List Nat, List.filter Frame.isDone (l.map (deltaFrame job chunkSize)) = [] := by
    intro l
    rw [List.filter_eq_nil_iff]
    intro f hf
    obtain ⟨k, _, rfl⟩ := List.mem_map.1 hf
    simp [isDone_deltaFrame]
  have hatt : attemptedFrames
      (deltaEvents job chunkSize delay 0 ((job.content.length + chunkSize - 1) / chunkSize)
        ++ [Event.write (.data (finalChunk job)) true, Event.write .done true,
            Event.close sink.closeOk]) =
      (List.range ((job.content.length + chunkSize - 1) / chunkSize)).map
          (deltaFrame job chunkSize) ++ [Frame.data (finalChunk job), Frame.done] := by
    rw [attemptedFrames_append, attemptedFrames_deltaEvents, ← List.range_eq_range']
    simp [attemptedFrames, Event.attempted]
  have hdel : deliveredFrames
      (deltaEvents job chunkSize delay 0 ((job.content.length + chunkSize - 1) / chunkSize)
        ++ [Event.write (.data (finalChunk job)) true, Event.write .done true,
            Event.close sink.closeOk]) =
      (List.range ((job.content.length + chunkSize - 1) / chunkSize)).map
          (deltaFrame job chunkSize) ++ [Frame.data (finalChunk job), Frame.done] := by
    rw [deliveredFrames_append, deliveredFrames_deltaEvents, ← List.range_eq_range']
    simp [deliveredFrames, Event.delivered]
  refine ⟨_, (List.range ((job.content.length + chunkSize - 1) / chunkSize)).map
      (deltaFrame job chunkSize), Frame.data (finalChunk job),
    pseudoStream_accept sink job chunkSize delay hc (fun j _ => hsink j),
    hatt, hdel, ?_, ?_, rfl, rfl, isFinal_finalChunk job, by decide, ?_, ?_, ?_⟩
  · intro f hf
    obtain ⟨k, _, rfl⟩ := List.mem_map.1 hf
    simp [deltaContent_deltaFrame, isFinal_deltaFrame, isDone_deltaFrame]
  · intro h0
    have : (chunkSize - 1) / chunkSize = 0 := by
      apply Nat.div_eq_of_lt; omega
    simp [h0, this]
  · simp only []
    rw [hdel, List.filter_append, hfinal]
    have h1 := isFinal_finalChunk job
    have h2 : Frame.done.isFinal = false := rfl
    simp [List.filter, h1, h2]
  · simp only []
    rw [hdel, List.filter_append, hdone]
    simp [List.filter, Frame.isDone]
  · simp only []
    rw [hdel]
    simp [List.getLast?_append]

theorem final_frame_then_sentinel_witness :
    (0 < 5) ∧ (∀ k, (Sink.mk (fun _ => true) true).writeOk k = true) ∧
    ∃ r deltas finalFrame,
      pseudoStream (Sink.mk (fun _ => true) true)
        (StreamJob.mk (js "chatcmpl-4") 1700000003 (js "brainstorm-tool") []) 5 20 = some r ∧
      attemptedFrames r.events = deltas ++ [finalFrame, Frame.done] ∧
      deliveredFrames r.events = deltas ++ [finalFrame, Frame.done] ∧
      (∀ f ∈ deltas, f.deltaContent.isSome = true ∧ f.isFinal = false ∧ f.isDone = false) ∧
      ((StreamJob.mk (js "chatcmpl-4") 1700000003 (js "brainstorm-tool") []).content = [] →
        deltas = []) ∧
      finalFrame = Frame.data
        (finalChunk (StreamJob.mk (js "chatcmpl-4") 1700000003 (js "brainstorm-tool") [])) ∧
      (finalChunk (StreamJob.mk (js "chatcmpl-4") 1700000003 (js "brainstorm-tool") [])).choices =
        [{ index := 0, delta := { content := none }, finish_reason := some (js "stop") }] ∧
      finalFrame.isFinal = true ∧
      Frame.done.text = js "data: [DONE]\n\n" ∧
      ((deliveredFrames r.events).filter Frame.isFinal).length = 1 ∧
      ((deliveredFrames r.events).filter Frame.isDone).length = 1 ∧
      (deliveredFrames r.events).getLast? = some Frame.done :=
  ⟨by decide, fun _ => rfl,
    final_frame_then_sentinel (Sink.mk (fun _ => true) true)
      (StreamJob.mk (js "chatcmpl-4") 1700000003 (js "brainstorm-tool") []) 5 20
      (by decide) (fun _ => rfl)⟩

/-! ## A rejected write -/

/-- C5, counterexample. For the text "Hello World" the sink rejects the write with index 4,
the sentinel; the final stop frame has been written by then. -/
theorem sentinel_rejected_after_final_frame :
    (Sink.mk (fun k => k != 4) true).writeOk 4 = false ∧
    ∃ r, runStream (Sink.mk (fun k => k != 4) true)
        (StreamJob.mk (js "chatcmpl-5") 1700000004 (js "brainstorm-tool") (js "Hello World"))
        = some r ∧
      Event.write Frame.done false ∈ r.events ∧
      ∃ f ∈ deliveredFrames r.events, f.isFinal = true := by
  refine ⟨rfl, _, rfl, ?_, ?_⟩ <;> decide

/-- C5, amended. For every text, every positive chunk size and every write index `n` of the
session, if the sink accepts the writes before `n` and rejects write `n`, the producer attempts
the first `n + 1` frames of the session and no more, the first `n` are delivered, the sentinel
is never delivered, the final frame is delivered only when the rejected write is the sentinel
and is not even attempted when the rejected write is a delta frame, `writer.close` is called
exactly once, as the last action, and the promise of the producer settles as `close` does: the
rejection of the write is swallowed. -/
theorem rejected_write_aborts_stream (sink : Sink) (job : StreamJob)
    (chunkSize delay n : Nat) (hc : 0 < chunkSize)
    (hn : n ≤ (job.content.length + chunkSize - 1) / chunkSize + 1)
    (hacc : ∀ k, k < n → sink.writeOk k = true) (hrej : sink.writeOk n = false) :
    ∃ r, pseudoStream sink job chunkSize delay = some r ∧
      attemptedFrames r.events = (fullFrames job chunkSize).take (n + 1) ∧
      deliveredFrames r.events = (fullFrames job chunkSize).take n ∧
      (∀ f ∈ deliveredFrames r.events, f.isDone = false) ∧
      (n ≤ (job.content.length + chunkSize - 1) / chunkSize →
        ∀ f ∈ deliveredFrames r.events, f.isFinal = false) ∧
      (n < (job.content.length + chunkSize - 1) / chunkSize →
        ∀ f ∈ attemptedFrames r.events, f.isFinal = false ∧ f.isDone = false) ∧
      (n = (job.content.length + chunkSize - 1) / chunkSize + 1 →
        Frame.data (finalChunk job) ∈ deliveredFrames r.events) ∧
      (r.events.filter Event.isClose).length = 1 ∧
      r.events.getLast? = some (Event.close sink.closeOk) ∧
      r.outcome = (if sink.closeOk then Settled.fulfilled else Settled.rejected) := by
  have hpre := frames_of_deltaEvents job chunkSize delay
  rcases Nat.lt_or_ge n ((job.content.length + chunkSize - 1) / chunkSize) with h1 | h1
  · -- the rejected write is a delta frame
    have hatt : attemptedFrames (deltaEvents job chunkSize delay 0 n ++
        [Event.write (deltaFrame job chunkSize n) false, Event.close sink.closeOk]) =
        (List.range (n + 1)).map (deltaFrame job chunkSize) := by
      rw [attemptedFrames_append, (hpre n).1, List.range_succ]
      simp [attemptedFrames, Event.attempted]
    have hdel : deliveredFrames (deltaEvents job chunkSize delay 0 n ++
        [Event.write (deltaFrame job chunkSize n) false, Event.close sink.closeOk]) =
        (List.range n).map (deltaFrame job chunkSize) := by
      rw [deliveredFrames_append, (hpre n).2]
      simp [deliveredFrames, Event.delivered]
    refine ⟨_, pseudoStream_reject_delta sink job chunkSize delay n hc h1 hacc hrej,
      ?_, ?_, ?_, ?_, ?_, ?_, ?_, ?_, rfl⟩
    · simp only []
      rw [hatt, fullFrames_take_le job chunkSize (n + 1) h1]
    · simp only []
      rw [hdel, fullFrames_take_le job chunkSize n (Nat.le_of_lt h1)]
    · simp only []
      rw [hdel]
      exact fun f hf => (deltaFrame_props job chunkSize _ f hf).2
    · simp only []
      rw [hdel]
      exact fun _ f hf => (deltaFrame_props job chunkSize _ f hf).1
    · simp only []
      rw [hatt]
      exact fun _ f hf => deltaFrame_props job chunkSize _ f hf
    · intro h; omega
    · simp [List.filter_append, filter_isClose_deltaEvents, Event.isClose]
    · simp [List.getLast?_append]
  · rcases Nat.eq_or_lt_of_le h1 with h2 | h2
    · -- the rejected write is the final chunk
      subst h2
      have hdel : deliveredFrames (deltaEvents job chunkSize delay 0
          ((job.content.length + chunkSize - 1) / chunkSize) ++
          [Event.write (.data (finalChunk job)) false, Event.close sink.closeOk]) =
          (List.range ((job.content.length + chunkSize - 1) / chunkSize)).map
            (deltaFrame job chunkSize) := by
        rw [deliveredFrames_append, (hpre _).2]
        simp [deliveredFrames, Event.delivered]
      refine ⟨_, pseudoStream_reject_final sink job chunkSize delay hc hacc hrej,
        ?_, ?_, ?_, ?_, ?_, ?_, ?_, ?_, rfl⟩
      · simp only []
        rw [attemptedFrames_append, (hpre _).1, fullFrames_take_succ]
        simp [attemptedFrames, Event.attempted]
      · simp only []
        rw [hdel, fullFrames_take_le job chunkSize _ (Nat.le_refl _)]
      · simp only []
        rw [hdel]
        exact fun f hf => (deltaFrame_props job chunkSize _ f hf).2
      · simp only []
        rw [hdel]
        exact fun _ f hf => (deltaFrame_props job chunkSize _ f hf).1
      · intro h; omega
      · intro h; omega
      · simp [List.filter_append, filter_isClose_deltaEvents, Event.isClose]
      · simp [List.getLast?_append]
    · -- the rejected write is the sentinel
      have h3 : n = (job.content.length + chunkSize - 1) / chunkSize + 1 := by omega
      subst h3
      have hdel : deliveredFrames (deltaEvents job chunkSize delay 0
          ((job.content.length + chunkSize - 1) / chunkSize) ++
          [Event.write (.data (finalChunk job)) true, Event.write .done false,
            Event.close sink.closeOk]) =
          (List.range ((job.content.length + chunkSize - 1) / chunkSize)).map
            (deltaFrame job chunkSize) ++ [Frame.data (finalChunk job)] := by
        rw [deliveredFrames_append, (hpre _).2]
        simp [deliveredFrames, Event.delivered]
      refine ⟨_, pseudoStream_reject_done sink job chunkSize delay hc
          (fun j hj => hacc j (by omega)) hrej,
        ?_, ?_, ?_, ?_, ?_, ?_, ?_, ?_, rfl⟩
      · simp only []
        rw [attemptedFrames_append, (hpre _).1, fullFrames_take_all]
        simp [attemptedFrames, Event.attempted, fullFrames]
      · simp only []
        rw [hdel, fullFrames_take_succ]
      · simp only []
        rw [hdel]
        intro f hf
        rcases List.mem_append.1 hf with hf | hf
        · exact (deltaFrame_props job chunkSize _ f hf).2
        · rw [List.mem_singleton.1 hf]; rfl
      · intro h; omega
      · intro h; omega
      · intro _
        simp only []
        rw [hdel]
        simp
      · simp [List.filter_append, filter_isClose_deltaEvents, Event.isClose]
      · simp [List.getLast?_append]

theorem rejected_write_aborts_stream_witness :
    (0 < 5) ∧
    (2 ≤ ((StreamJob.mk (js "chatcmpl-6") 1700000005 (js "brainstorm-tool")
        (js "Hello World")).content.length + 5 - 1) / 5 + 1) ∧
    (∀ k, k < 2 → (Sink.mk (fun k => k != 2) false).writeOk k = true) ∧
    (Sink.mk (fun k => k != 2) false).writeOk 2 = false ∧
    ∃ r, pseudoStream (Sink.mk (fun k => k != 2) false)
        (StreamJob.mk (js "chatcmpl-6") 1700000005 (js "brainstorm-tool") (js "Hello World"))
        5 20 = some r ∧
      attemptedFrames r.events =
        (fullFrames (StreamJob.mk (js "chatcmpl-6") 1700000005 (js "brainstorm-tool")
          (js "Hello World")) 5).take (2 + 1) ∧
      deliveredFrames r.events =
        (fullFrames (StreamJob.mk (js "chatcmpl-6") 1700000005 (js "brainstorm-tool")
          (js "Hello World")) 5).take 2 ∧
      (∀ f ∈ deliveredFrames r.events, f.isDone = false) ∧
      (2 ≤ ((StreamJob.mk (js "chatcmpl-6") 1700000005 (js "brainstorm-tool")
          (js "Hello World")).content.length + 5 - 1) / 5 →
        ∀ f ∈ deliveredFrames r.events, f.isFinal = false) ∧
      (2 < ((StreamJob.mk (js "chatcmpl-6") 1700000005 (js "brainstorm-tool")
          (js "Hello World")).content.length + 5 - 1) / 5 →
        ∀ f ∈ attemptedFrames r.events, f.isFinal = false ∧ f.isDone = false) ∧
      (2 = ((StreamJob.mk (js "chatcmpl-6") 1700000005 (js "brainstorm-tool")
          (js "Hello World")).content.length + 5 - 1) / 5 + 1 →
        Frame.data (finalChunk (StreamJob.mk (js "chatcmpl-6") 1700000005
          (js "brainstorm-tool") (js "Hello World"))) ∈ deliveredFrames r.events) ∧
      (r.events.filter Event.isClose).length = 1 ∧
      r.events.getLast? = some (Event.close (Sink.mk (fun k => k != 2) false).closeOk) ∧
      r.outcome = (if (Sink.mk (fun k => k != 2) false).closeOk then Settled.fulfilled
        else Settled.rejected) :=
  ⟨by decide, by decide, by decide, rfl,
    rejected_write_aborts_stream (Sink.mk (fun k => k != 2) false)
      (StreamJob.mk (js "chatcmpl-6") 1700000005 (js "brainstorm-tool") (js "Hello World"))
      5 20 2 (by decide) (by decide) (by decide) rfl⟩

/-! ## The non-streaming response -/

/-- C6. For every prompt `p` and generation text `c`, the response of the handler to an
authorised non-streaming request is the completion with object "chat.completion", exactly one
choice with index 0, role "assistant", content `c` and `finish_reason` "stop", and usage
`length p`, `length c` and their sum; the content and `completion_tokens` are the same for any
other request id, creation time, model and prompt. -/
theorem non_streaming_completion (env : Env) (upstream : UpstreamCall → FetchResult)
    (request : Request) (apiKey : JSString) (requestData : RequestData)
    (messages : List Message) (status : Nat) (text : Except JSString JSString)
    (data : UpstreamData)
    (p c : JSString)
    (hauth : (verifyAuth request apiKey).truthy = true)
    (hbody : request.body = some requestData)
    (hmsgs : requestData.messages = some messages) (hne : messages ≠ [])
    (hstream : requestData.stream = false)
    (hp : extractPrompt messages = p)
    (hup : upstream (upstreamCallFor env (toolIdFor (requestedModel requestData)) p) =
      FetchResult.response status text (.ok data))
    (hok : 200 ≤ status ∧ status ≤ 299)
    (hcontent : resolveContent data = c) :
    ∃ completion choice,
      (handleChatCompletions env upstream request apiKey).response.body =
        Body.completion completion ∧
      (handleChatCompletions env upstream request apiKey).response.status = 200 ∧
      (handleChatCompletions env upstream request apiKey).started = none ∧
      completion = buildCompletion (js "chatcmpl-" ++ env.requestUUID) (env.nowMs / 1000)
        (requestedModel requestData) p c ∧
      completion.object = js "chat.completion" ∧
      completion.choices = [choice] ∧
      choice.index = 0 ∧
      choice.message.role = js "assistant" ∧
      choice.message.content = c ∧
      choice.finish_reason = js "stop" ∧
      completion.usage.prompt_tokens = p.length ∧
      completion.usage.completion_tokens = c.length ∧
      completion.usage.total_tokens = p.length + c.length ∧
      (∀ requestId2 created2 model2 prompt2,
        (buildCompletion requestId2 created2 model2 prompt2 c).choices.map
            (fun ch => ch.message.content) = completion.choices.map (fun ch => ch.message.content) ∧
        (buildCompletion requestId2 created2 model2 prompt2 c).usage.completion_tokens =
          completion.usage.completion_tokens) := by
  subst hp hcontent
  have h := handleChatCompletions_ok env upstream request apiKey requestData messages status
    text data hauth hbody hmsgs hne hup hok
  rw [hstream] at h
  simp only [Bool.false_eq_true, if_false] at h
  rw [h]
  exact ⟨_, _, rfl, rfl, rfl, rfl, rfl, rfl, rfl, rfl, rfl, rfl, rfl, rfl, rfl,
    fun _ _ _ _ => ⟨rfl, rfl⟩⟩

theorem non_streaming_completion_witness :
    (verifyAuth (Request.mk none (some (RequestData.mk (some (js "email-writer"))
        (some [Message.mk (js "user") (js "Hi")]) false))) (js "1")).truthy = true ∧
    (200 ≤ 200 ∧ 200 ≤ 299) ∧
    extractPrompt [Message.mk (js "user") (js "Hi")] = js "Hi" ∧
    resolveContent (UpstreamData.mk (some (js "Hello World")) none) = js "Hello World" ∧
    ∃ completion choice,
      (handleChatCompletions (Env.mk (js "u-1") (js "u-2") 1700000000123)
        (fun _ => FetchResult.response 200 (.ok [])
          (.ok (UpstreamData.mk (some (js "Hello World")) none)))
        (Request.mk none (some (RequestData.mk (some (js "email-writer"))
          (some [Message.mk (js "user") (js "Hi")]) false))) (js "1")).response.body =
        Body.completion completion ∧
      (handleChatCompletions (Env.mk (js "u-1") (js "u-2") 1700000000123)
        (fun _ => FetchResult.response 200 (.ok [])
          (.ok (UpstreamData.mk (some (js "Hello World")) none)))
        (Request.mk none (some (RequestData.mk (some (js "email-writer"))
          (some [Message.mk (js "user") (js "Hi")]) false))) (js "1")).response.status = 200 ∧
      (handleChatCompletions (Env.mk (js "u-1") (js "u-2") 1700000000123)
        (fun _ => FetchResult.response 200 (.ok [])
          (.ok (UpstreamData.mk (some (js "Hello World")) none)))
        (Request.mk none (some (RequestData.mk (some (js "email-writer"))
          (some [Message.mk (js "user") (js "Hi")]) false))) (js "1")).started = none ∧
      completion = buildCompletion
        (js "chatcmpl-" ++ (Env.mk (js "u-1") (js "u-2") 1700000000123).requestUUID)
        ((Env.mk (js "u-1") (js "u-2") 1700000000123).nowMs / 1000)
        (requestedModel (RequestData.mk (some (js "email-writer"))
          (some [Message.mk (js "user") (js "Hi")]) false))
        (js "Hi") (js "Hello World") ∧
      completion.object = js "chat.completion" ∧
      completion.choices = [choice] ∧
      choice.index = 0 ∧
      choice.message.role = js "assistant" ∧
      choice.message.content = js "Hello World" ∧
      choice.finish_reason = js "stop" ∧
      completion.usage.prompt_tokens = (js "Hi").length ∧
      completion.usage.completion_tokens = (js "Hello World").length ∧
      completion.usage.total_tokens = (js "Hi").length + (js "Hello World").length ∧
      (∀ requestId2 created2 model2 prompt2,
        (buildCompletion requestId2 created2 model2 prompt2 (js "Hello World")).choices.map
            (fun ch => ch.message.content) = completion.choices.map (fun ch => ch.message.content) ∧
        (buildCompletion requestId2 created2 model2 prompt2
            (js "Hello World")).usage.completion_tokens =
          completion.usage.completion_tokens) :=
  ⟨by decide, by decide, by decide, by decide,
    non_streaming_completion (Env.mk (js "u-1") (js "u-2") 1700000000123)
      (fun _ => FetchResult.response 200 (.ok [])
        (.ok (UpstreamData.mk (some (js "Hello World")) none)))
      (Request.mk none (some (RequestData.mk (some (js "email-writer"))
        (some [Message.mk (js "user") (js "Hi")]) false))) (js "1") _
      [Message.mk (js "user") (js "Hi")] 200 (.ok []) _ (js "Hi") (js "Hello World")
      (by decide) rfl rfl (by decide) rfl (by decide) rfl (by decide) (by decide)⟩

/-! ## Every frame of a session -/

set_option maxRecDepth 100000

/-- The text of a delta frame, spelled out. -/
theorem text_deltaChunk (job : StreamJob) (s : JSString) :
    (Frame.data (deltaChunk job s)).text =
      js "data: \x7b\"id\":" ++ stringifyString job.requestId
        ++ js ",\"object\":\"chat.completion.chunk\",\"created\":" ++ natToJS job.created
        ++ js ",\"model\":" ++ stringifyString job.model
        ++ js ",\"choices\":[\x7b\"index\":0,\"delta\":\x7b\"content\":" ++ stringifyString s
        ++ js "\x7d,\"finish_reason\":null\x7d]\x7d\n\n" := by
  simp only [Frame.text, stringifyChunk, deltaChunk, stringifyChoice, stringifyDelta,
    stringifyString, List.map_cons, List.map_nil, List.intercalate, List.intersperse,
    List.flatten, List.append_assoc]
  rfl

/-- The text of the final frame, spelled out. -/
theorem text_finalChunk (job : StreamJob) :
    (Frame.data (finalChunk job)).text =
      js "data: \x7b\"id\":" ++ stringifyString job.requestId
        ++ js ",\"object\":\"chat.completion.chunk\",\"created\":" ++ natToJS job.created
        ++ js ",\"model\":" ++ stringifyString job.model
        ++ js ",\"choices\":[\x7b\"index\":0,\"delta\":\x7b\x7d,\"finish_reason\":\"stop\"\x7d]\x7d\n\n" := by
  simp only [Frame.text, stringifyChunk, finalChunk, stringifyChoice, stringifyDelta,
    stringifyString, List.map_cons, List.map_nil, List.intercalate, List.intersperse,
    List.flatten, List.append_assoc]
  rfl

/-- A string without quotes, backslashes, control characters and surrogates is quoted as
itself. -/
theorem quoteUnits_plain (s : JSString)
    (h : ∀ u ∈ s, 32 ≤ u ∧ u ≠ 34 ∧ u ≠ 92 ∧ (u < 0xD800 ∨ 0xDFFF < u)) :
    quoteUnits s = s := by
  induction s with
  | nil => rfl
  | cons u rest ih =>
    obtain ⟨h32, h34, h92, hsur⟩ := h u (List.mem_cons_self u rest)
    have hrest := ih (fun v hv => h v (List.mem_cons_of_mem u hv))
    have hhigh : isHighSurrogate u = false := by
      simp only [isHighSurrogate, Bool.and_eq_false_imp, decide_eq_true_eq, decide_eq_false_iff_not]
      omega
    have hlow : isLowSurrogate u = false := by
      simp only [isLowSurrogate, Bool.and_eq_false_imp, decide_eq_true_eq, decide_eq_false_iff_not]
      omega
    have h8 : u ≠ 8 := by omega
    have h9 : u ≠ 9 := by omega
    have h10 : u ≠ 10 := by omega
    have h12 : u ≠ 12 := by omega
    have h13 : u ≠ 13 := by omega
    have hlt : ¬ u < 32 := by omega
    rw [quoteUnits.eq_def]
    simp [h8, h9, h10, h12, h13, h34, h92, hlt, hhigh, hlow, hrest]

/-- C7. Every frame written in the streaming session started by the handler, other than the
sentinel, is the text "data: " followed by the JSON of a chunk and two newlines (encoded as
bytes), and that JSON text is spelled out: the chunk carries the request id of the session, its
creation time and the requested model, the object "chat.completion.chunk" and exactly one
choice with index 0, which has either a delta with content and a null `finish_reason` (a delta
frame) or an empty delta and `finish_reason` "stop" (the final frame). Ordinary text is quoted
as itself, and the text and bytes of one delta frame and the text of one final frame are
written out in full. -/
theorem frames_share_session_metadata (env : Env) (upstream : UpstreamCall → FetchResult)
    (request : Request) (apiKey : JSString) (requestData : RequestData) (job : StreamJob)
    (sink : Sink) (hbody : request.body = some requestData)
    (hstart : (handleChatCompletions env upstream request apiKey).started = some job) :
    (∃ r, runStream sink job = some r ∧
      ∀ f ∈ attemptedFrames r.events, f = Frame.done ∨
        ∃ chunk ch, f = Frame.data chunk ∧
          f.text = js "data: " ++ stringifyChunk chunk ++ js "\n\n" ∧
          f.bytes = encode (js "data: " ++ stringifyChunk chunk ++ js "\n\n") ∧
          chunk.id = js "chatcmpl-" ++ env.requestUUID ∧
          chunk.created = env.nowMs / 1000 ∧
          chunk.model = requestedModel requestData ∧
          chunk.object = js "chat.completion.chunk" ∧
          chunk.choices = [ch] ∧ ch.index = 0 ∧
          ((f.deltaContent.isSome = true ∧ ch.finish_reason = none ∧
              ∃ s, ch.delta.content = some s ∧
                f.text =
                  js "data: \x7b\"id\":" ++ stringifyString (js "chatcmpl-" ++ env.requestUUID)
                    ++ js ",\"object\":\"chat.completion.chunk\",\"created\":"
                    ++ natToJS (env.nowMs / 1000)
                    ++ js ",\"model\":" ++ stringifyString (requestedModel requestData)
                    ++ js ",\"choices\":[\x7b\"index\":0,\"delta\":\x7b\"content\":"
                    ++ stringifyString s
                    ++ js "\x7d,\"finish_reason\":null\x7d]\x7d\n\n") ∨
            (f.isFinal = true ∧ ch.delta.content = none ∧
              ch.finish_reason = some (js "stop") ∧
              f.text =
                js "data: \x7b\"id\":" ++ stringifyString (js "chatcmpl-" ++ env.requestUUID)
                  ++ js ",\"object\":\"chat.completion.chunk\",\"created\":"
                  ++ natToJS (env.nowMs / 1000)
                  ++ js ",\"model\":" ++ stringifyString (requestedModel requestData)
                  ++ js ",\"choices\":[\x7b\"index\":0,\"delta\":\x7b\x7d,\"finish_reason\":\"stop\"\x7d]\x7d\n\n"))) ∧
    (∀ s : JSString, (∀ u ∈ s, 32 ≤ u ∧ u ≠ 34 ∧ u ≠ 92 ∧ (u < 0xD800 ∨ 0xDFFF < u)) →
      stringifyString s = js "\"" ++ s ++ js "\"") ∧
    (Frame.data (deltaChunk (StreamJob.mk (js "chatcmpl-1") 1700000000 (js "essay-writer")
        (js "Hi \"x\"\n")) (js "Hi \"x\"\n"))).text =
      js "data: \x7b\"id\":\"chatcmpl-1\",\"object\":\"chat.completion.chunk\",\"created\":1700000000,\"model\":\"essay-writer\",\"choices\":[\x7b\"index\":0,\"delta\":\x7b\"content\":\"Hi \\\"x\\\"\\n\"\x7d,\"finish_reason\":null\x7d]\x7d\n\n" ∧
    (Frame.data (deltaChunk (StreamJob.mk (js "chatcmpl-1") 1700000000 (js "essay-writer")
        (js "Hi \"x\"\n")) (js "Hi \"x\"\n"))).bytes =
      js "data: \x7b\"id\":\"chatcmpl-1\",\"object\":\"chat.completion.chunk\",\"created\":1700000000,\"model\":\"essay-writer\",\"choices\":[\x7b\"index\":0,\"delta\":\x7b\"content\":\"Hi \\\"x\\\"\\n\"\x7d,\"finish_reason\":null\x7d]\x7d\n\n" ∧
    (Frame.data (finalChunk (StreamJob.mk (js "chatcmpl-1") 1700000000 (js "essay-writer")
        (js "Hi \"x\"\n")))).text =
      js "data: \x7b\"id\":\"chatcmpl-1\",\"object\":\"chat.completion.chunk\",\"created\":1700000000,\"model\":\"essay-writer\",\"choices\":[\x7b\"index\":0,\"delta\":\x7b\x7d,\"finish_reason\":\"stop\"\x7d]\x7d\n\n" := by
  obtain ⟨hid, hcreated, hmodel⟩ :=
    started_job env upstream request apiKey requestData job hbody hstart
  obtain ⟨r, hr⟩ := pseudoStream_total sink job 5 20 (by decide)
  refine ⟨⟨r, hr, ?_⟩, ?_, by decide, by decide, by decide⟩
  · intro f hf
    rcases pseudoStream_frames sink job 5 20 r hr f hf with h | h | ⟨s, h⟩
    · exact Or.inl h
    · subst h
      refine Or.inr ⟨finalChunk job, _, rfl, rfl, rfl, hid, hcreated, hmodel, rfl, rfl, rfl, ?_⟩
      refine Or.inr ⟨isFinal_finalChunk job, rfl, rfl, ?_⟩
      rw [text_finalChunk, hid, hcreated, hmodel]
    · subst h
      refine Or.inr ⟨deltaChunk job s, _, rfl, rfl, rfl, hid, hcreated, hmodel, rfl, rfl, rfl, ?_⟩
      refine Or.inl ⟨rfl, rfl, s, rfl, ?_⟩
      rw [text_deltaChunk, hid, hcreated, hmodel]
  · intro s hs
    simp only [stringifyString, quoteUnits_plain s hs]
    rfl

theorem frames_share_session_metadata_witness :
    (Request.mk none (some (RequestData.mk (some (js "essay-writer"))
        (some [Message.mk (js "user") (js "Hi")]) true))).body =
      some (RequestData.mk (some (js "essay-writer"))
        (some [Message.mk (js "user") (js "Hi")]) true) ∧
    (handleChatCompletions (Env.mk (js "u-1") (js "u-2") 1700000000123)
        (fun _ => FetchResult.response 200 (.ok [])
          (.ok (UpstreamData.mk (some (js "Hello World")) none)))
        (Request.mk none (some (RequestData.mk (some (js "essay-writer"))
          (some [Message.mk (js "user") (js "Hi")]) true)))
        (js "1")).started =
      some (StreamJob.mk (js "chatcmpl-u-1") 1700000000 (js "essay-writer") (js "Hello World")) ∧
    (∃ r, runStream (Sink.mk (fun k => k != 1) true) (StreamJob.mk (js "chatcmpl-u-1") 1700000000 (js "essay-writer")
        (js "Hello World")) = some r ∧
      ∀ f ∈ attemptedFrames r.events, f = Frame.done ∨
        ∃ chunk ch, f = Frame.data chunk ∧
          f.text = js "data: " ++ stringifyChunk chunk ++ js "\n\n" ∧
          f.bytes = encode (js "data: " ++ stringifyChunk chunk ++ js "\n\n") ∧
          chunk.id = js "chatcmpl-" ++ (Env.mk (js "u-1") (js "u-2") 1700000000123).requestUUID ∧
          chunk.created = (Env.mk (js "u-1") (js "u-2") 1700000000123).nowMs / 1000 ∧
          chunk.model = requestedModel (RequestData.mk (some (js "essay-writer"))
            (some [Message.mk (js "user") (js "Hi")]) true) ∧
          chunk.object = js "chat.completion.chunk" ∧
          chunk.choices = [ch] ∧ ch.index = 0 ∧
          ((f.deltaContent.isSome = true ∧ ch.finish_reason = none ∧
              ∃ s, ch.delta.content = some s ∧
                f.text =
                  js "data: \x7b\"id\":" ++ stringifyString (js "chatcmpl-" ++ (Env.mk (js "u-1") (js "u-2") 1700000000123).requestUUID)
                    ++ js ",\"object\":\"chat.completion.chunk\",\"created\":"
                    ++ natToJS ((Env.mk (js "u-1") (js "u-2") 1700000000123).nowMs / 1000)
                    ++ js ",\"model\":" ++ stringifyString (requestedModel (RequestData.mk (some (js "essay-writer"))
            (some [Message.mk (js "user") (js "Hi")]) true))
                    ++ js ",\"choices\":[\x7b\"index\":0,\"delta\":\x7b\"content\":"
                    ++ stringifyString s
                    ++ js "\x7d,\"finish_reason\":null\x7d]\x7d\n\n") ∨
            (f.isFinal = true ∧ ch.delta.content = none ∧
              ch.finish_reason = some (js "stop") ∧
              f.text =
                js "data: \x7b\"id\":" ++ stringifyString (js "chatcmpl-" ++ (Env.mk (js "u-1") (js "u-2") 1700000000123).requestUUID)
                  ++ js ",\"object\":\"chat.completion.chunk\",\"created\":"
                  ++ natToJS ((Env.mk (js "u-1") (js "u-2") 1700000000123).nowMs / 1000)
                  ++ js ",\"model\":" ++ stringifyString (requestedModel (RequestData.mk (some (js "essay-writer"))
            (some [Message.mk (js "user") (js "Hi")]) true))
                  ++ js ",\"choices\":[\x7b\"index\":0,\"delta\":\x7b\x7d,\"finish_reason\":\"stop\"\x7d]\x7d\n\n"))) ∧
    (∀ s : JSString, (∀ u ∈ s, 32 ≤ u ∧ u ≠ 34 ∧ u ≠ 92 ∧ (u < 0xD800 ∨ 0xDFFF < u)) →
      stringifyString s = js "\"" ++ s ++ js "\"") ∧
    (Frame.data (deltaChunk (StreamJob.mk (js "chatcmpl-1") 1700000000 (js "essay-writer")
        (js "Hi \"x\"\n")) (js "Hi \"x\"\n"))).text =
      js "data: \x7b\"id\":\"chatcmpl-1\",\"object\":\"chat.completion.chunk\",\"created\":1700000000,\"model\":\"essay-writer\",\"choices\":[\x7b\"index\":0,\"delta\":\x7b\"content\":\"Hi \\\"x\\\"\\n\"\x7d,\"finish_reason\":null\x7d]\x7d\n\n" ∧
    (Frame.data (deltaChunk (StreamJob.mk (js "chatcmpl-1") 1700000000 (js "essay-writer")
        (js "Hi \"x\"\n")) (js "Hi \"x\"\n"))).bytes =
      js "data: \x7b\"id\":\"chatcmpl-1\",\"object\":\"chat.completion.chunk\",\"created\":1700000000,\"model\":\"essay-writer\",\"choices\":[\x7b\"index\":0,\"delta\":\x7b\"content\":\"Hi \\\"x\\\"\\n\"\x7d,\"finish_reason\":null\x7d]\x7d\n\n" ∧
    (Frame.data (finalChunk (StreamJob.mk (js "chatcmpl-1") 1700000000 (js "essay-writer")
        (js "Hi \"x\"\n")))).text =
      js "data: \x7b\"id\":\"chatcmpl-1\",\"object\":\"chat.completion.chunk\",\"created\":1700000000,\"model\":\"essay-writer\",\"choices\":[\x7b\"index\":0,\"delta\":\x7b\x7d,\"finish_reason\":\"stop\"\x7d]\x7d\n\n" :=
  ⟨rfl, by decide,
    frames_share_session_metadata (Env.mk (js "u-1") (js "u-2") 1700000000123)
      (fun _ => FetchResult.response 200 (.ok [])
        (.ok (UpstreamData.mk (some (js "Hello World")) none)))
      (Request.mk none (some (RequestData.mk (some (js "essay-writer"))
        (some [Message.mk (js "user") (js "Hi")]) true)))
      (js "1") _ _ (Sink.mk (fun k => k != 1) true) rfl (by decide)⟩

/-! ## The prompt and input validation -/

/-- C8. For every non-empty message list of an authorised request, the handler makes one
upstream call; its prompt is the content of the last message with role "user", whatever
messages follow it, and the literal "Hello" when no message has role "user". -/
theorem prompt_is_last_user_message (env : Env) (upstream : UpstreamCall → FetchResult)
    (request : Request) (apiKey : JSString) (requestData : RequestData)
    (messages : List Message)
    (hauth : (verifyAuth request apiKey).truthy = true)
    (hbody : request.body = some requestData)
    (hmsgs : requestData.messages = some messages) (hne : messages ≠ []) :
    ∃ call, (handleChatCompletions env upstream request apiKey).upstreamCalls = [call] ∧
      (∀ pre m post, messages = pre ++ m :: post → m.role = js "user" →
        (∀ x ∈ post, x.role ≠ js "user") → call.payload.text = m.content) ∧
      ((∀ x ∈ messages, x.role ≠ js "user") → call.payload.text = js "Hello") := by
  refine ⟨_, handleChatCompletions_calls env upstream request apiKey requestData messages
    hauth hbody hmsgs hne, ?_, ?_⟩
  · intro pre m post hsplit hm hpost
    subst hsplit
    exact extractPrompt_last_user pre post m hm hpost
  · intro h
    exact extractPrompt_no_user messages h

theorem prompt_is_last_user_message_witness :
    (verifyAuth (Request.mk (some (js "Bearer k")) (some (RequestData.mk none
        (some [Message.mk (js "user") (js "first"), Message.mk (js "assistant") (js "reply"),
          Message.mk (js "user") (js "second"), Message.mk (js "system") (js "tail")]) false)))
      (js "k")).truthy = true ∧
    (Request.mk (some (js "Bearer k")) (some (RequestData.mk none
        (some [Message.mk (js "user") (js "first"), Message.mk (js "assistant") (js "reply"),
          Message.mk (js "user") (js "second"), Message.mk (js "system") (js "tail")])
        false))).body =
      some (RequestData.mk none
        (some [Message.mk (js "user") (js "first"), Message.mk (js "assistant") (js "reply"),
          Message.mk (js "user") (js "second"), Message.mk (js "system") (js "tail")]) false) ∧
    (RequestData.mk none
        (some [Message.mk (js "user") (js "first"), Message.mk (js "assistant") (js "reply"),
          Message.mk (js "user") (js "second"), Message.mk (js "system") (js "tail")])
        false).messages =
      some [Message.mk (js "user") (js "first"), Message.mk (js "assistant") (js "reply"),
          Message.mk (js "user") (js "second"), Message.mk (js "system") (js "tail")] ∧
    [Message.mk (js "user") (js "first"), Message.mk (js "assistant") (js "reply"),
      Message.mk (js "user") (js "second"), Message.mk (js "system") (js "tail")] ≠ [] ∧
    ∃ call, (handleChatCompletions (Env.mk (js "u-1") (js "u-2") 1700000000123)
        (fun _ => FetchResult.threw (js "network"))
        (Request.mk (some (js "Bearer k")) (some (RequestData.mk none
          (some [Message.mk (js "user") (js "first"), Message.mk (js "assistant") (js "reply"),
            Message.mk (js "user") (js "second"), Message.mk (js "system") (js "tail")]) false)))
        (js "k")).upstreamCalls = [call] ∧
      (∀ pre m post,
        [Message.mk (js "user") (js "first"), Message.mk (js "assistant") (js "reply"),
          Message.mk (js "user") (js "second"), Message.mk (js "system") (js "tail")] =
          pre ++ m :: post → m.role = js "user" →
        (∀ x ∈ post, x.role ≠ js "user") → call.payload.text = m.content) ∧
      ((∀ x ∈ [Message.mk (js "user") (js "first"), Message.mk (js "assistant") (js "reply"),
          Message.mk (js "user") (js "second"), Message.mk (js "system") (js "tail")],
          x.role ≠ js "user") → call.payload.text = js "Hello") :=
  ⟨by decide, rfl, rfl, by decide,
    prompt_is_last_user_message (Env.mk (js "u-1") (js "u-2") 1700000000123)
      (fun _ => FetchResult.threw (js "network"))
      (Request.mk (some (js "Bearer k")) (some (RequestData.mk none
        (some [Message.mk (js "user") (js "first"), Message.mk (js "assistant") (js "reply"),
          Message.mk (js "user") (js "second"), Message.mk (js "system") (js "tail")]) false)))
      (js "k") _ _ (by decide) rfl rfl (by decide)⟩

/-- C9, counterexample. An authorised streaming request whose only message is a user message
with empty content is not rejected: the prompt is empty, one upstream call carrying the empty
text is made, the response has status 200 and a stream is started. -/
theorem empty_prompt_reaches_upstream :
    extractPrompt [Message.mk (js "user") []] = [] ∧
    ((handleChatCompletions (Env.mk (js "u-1") (js "u-2") 1700000000123)
        (fun _ => FetchResult.response 200 (.ok []) (.ok (UpstreamData.mk (some (js "Hi")) none)))
        (Request.mk none (some (RequestData.mk none (some [Message.mk (js "user") []]) true)))
        (js "1")).upstreamCalls.map (fun call => call.payload.text)) = [[]] ∧
    (handleChatCompletions (Env.mk (js "u-1") (js "u-2") 1700000000123)
        (fun _ => FetchResult.response 200 (.ok []) (.ok (UpstreamData.mk (some (js "Hi")) none)))
        (Request.mk none (some (RequestData.mk none (some [Message.mk (js "user") []]) true)))
        (js "1")).response.status = 200 ∧
    (handleChatCompletions (Env.mk (js "u-1") (js "u-2") 1700000000123)
        (fun _ => FetchResult.response 200 (.ok []) (.ok (UpstreamData.mk (some (js "Hi")) none)))
        (Request.mk none (some (RequestData.mk none (some [Message.mk (js "user") []]) true)))
        (js "1")).started =
      some (StreamJob.mk (js "chatcmpl-u-1") 1700000000 (js "brainstorm-tool") (js "Hi")) := by
  decide

/-- On a schema-conforming request whose body is not parseable JSON or whose message list is
missing or empty, the handler returns a structured error response (401 when the request is not
authorised, else 400 with code "invalid_json" or "invalid_request"), makes no upstream call
and starts no stream. -/
theorem handleChatCompletions_malformed (env : Env) (upstream : UpstreamCall → FetchResult)
    (request : Request) (apiKey : JSString)
    (hbad : request.body = none ∨
      ∃ requestData, request.body = some requestData ∧
        (requestData.messages = none ∨ requestData.messages = some [])) :
    (∃ message status code,
      (handleChatCompletions env upstream request apiKey).response =
        createErrorResponse message status code ∧
      ((verifyAuth request apiKey).truthy = false → status = 401 ∧ code = js "unauthorized") ∧
      ((verifyAuth request apiKey).truthy = true → request.body = none →
        status = 400 ∧ code = js "invalid_json") ∧
      ((verifyAuth request apiKey).truthy = true → request.body ≠ none →
        status = 400 ∧ code = js "invalid_request")) ∧
    (handleChatCompletions env upstream request apiKey).upstreamCalls = [] ∧
    (handleChatCompletions env upstream request apiKey).started = none := by
  cases hauth : (verifyAuth request apiKey).truthy
  · rw [handleChatCompletions_unauthorized env upstream request apiKey hauth]
    exact ⟨⟨_, _, _, rfl, fun _ => ⟨rfl, rfl⟩, fun h => by simp at h, fun h => by simp at h⟩,
      rfl, rfl⟩
  · rcases hbad with hnone | ⟨requestData, hsome, hmsgs⟩
    · rw [handleChatCompletions_invalid_json env upstream request apiKey hauth hnone]
      exact ⟨⟨_, _, _, rfl, fun h => by simp at h, fun _ _ => ⟨rfl, rfl⟩,
        fun _ h => absurd hnone h⟩, rfl, rfl⟩
    · rw [handleChatCompletions_invalid_request env upstream request apiKey requestData hauth
        hsome hmsgs]
      exact ⟨⟨_, _, _, rfl, fun h => by simp at h, fun _ h => by simp [hsome] at h,
        fun _ _ => ⟨rfl, rfl⟩⟩, rfl, rfl⟩

/-! ## Arbitrary request bodies, case by case -/

theorem verifyAuth_header (request : Request) (apiKey : JSString) :
    verifyAuth ⟨request.authorization, none⟩ apiKey = verifyAuth request apiKey := by
  cases request
  rfl

theorem findUser_map_toJSON (messages : List Message) :
    findUser (messages.map Message.toJSON) =
      .ok ((messages.find? (fun m => m.role == js "user")).map Message.toJSON) := by
  induction messages with
  | nil => rfl
  | cons m rest ih =>
    by_cases hrole : m.role = js "user"
    · simp [findUser, Message.toJSON, List.lookup, hrole]
    · have hlookup : List.lookup (js "role")
          [(js "role", JSON.str m.role), (js "content", JSON.str m.content)] =
          some (JSON.str m.role) := by
        simp [List.lookup]
      simp only [List.map_cons, findUser, Message.toJSON, hlookup, if_neg hrole]
      rw [List.find?_cons_of_neg]
      · exact ih
      · simpa using hrole

theorem member_messages_toJSON (requestData : RequestData) :
    requestData.toJSON.member (js "messages") =
      .ok (requestData.messages.map (fun messages => JSON.arr (messages.map Message.toJSON))) := by
  have h1 : (js "messages" == js "model") = false := by decide
  have h2 : (js "messages" == js "stream") = false := by decide
  cases hmodel : requestData.model <;> cases hmsgs : requestData.messages <;>
    simp [RequestData.toJSON, JSON.member, hmodel, hmsgs, List.lookup, h1, h2]

/-- On a schema-conforming request the handler for arbitrary bodies returns what
`handleChatCompletions` returns when the request is rejected, and otherwise hands the prompt of
`extractPrompt` to the remainder. -/
theorem handleChatCompletionsRaw_refines (env : Env) (upstream : UpstreamCall → FetchResult)
    (rest : JSON → Option JSON → RawOutcome) (request : Request) (apiKey : JSString) :
    handleChatCompletionsRaw rest request.toRaw apiKey =
      if (verifyAuth request apiKey).truthy = false then
        .returned (handleChatCompletions env upstream request apiKey)
      else
        match request.body with
        | none => .returned (handleChatCompletions env upstream request apiKey)
        | some requestData =>
          if (requestData.messages.getD []).length = 0 then
            .returned (handleChatCompletions env upstream request apiKey)
          else
            rest requestData.toJSON
              (some (.str (extractPrompt (requestData.messages.getD [])))) := by
  cases hauth : (verifyAuth request apiKey).truthy
  · rw [handleChatCompletions_unauthorized env upstream request apiKey hauth]
    simp [handleChatCompletionsRaw, Request.toRaw, verifyAuth_header, hauth]
  · cases hbody : request.body with
    | none =>
      rw [handleChatCompletions_invalid_json env upstream request apiKey hauth hbody]
      simp [handleChatCompletionsRaw, Request.toRaw, verifyAuth_header, hauth, hbody]
    | some requestData =>
      cases hmsgs : requestData.messages with
      | none =>
        rw [handleChatCompletions_invalid_request env upstream request apiKey requestData hauth
          hbody (Or.inl hmsgs)]
        simp [handleChatCompletionsRaw, Request.toRaw, verifyAuth_header, hauth, hbody,
          member_messages_toJSON, hmsgs, lengthIsZero]
      | some messages =>
        by_cases hnil : messages = []
        · subst hnil
          rw [handleChatCompletions_invalid_request env upstream request apiKey requestData hauth
            hbody (Or.inr hmsgs)]
          simp [handleChatCompletionsRaw, Request.toRaw, verifyAuth_header, hauth, hbody,
            member_messages_toJSON, hmsgs, lengthIsZero, JSON.truthy]
        · have hfind := findUser_map_toJSON messages.reverse
          rw [List.map_reverse] at hfind
          have hempty : (List.map Message.toJSON messages).isEmpty = false := by
            cases messages with
            | nil => exact absurd rfl hnil
            | cons m rest2 => rfl
          have hlen : messages.length ≠ 0 := by
            intro h; exact hnil (List.length_eq_zero.1 h)
          simp only [handleChatCompletionsRaw, Request.toRaw, verifyAuth_header, hauth, hbody,
            member_messages_toJSON, hmsgs, Option.map_some', JSON.truthy, lengthIsZero,
            Bool.not_true, Bool.false_eq_true, if_false, if_true, hempty,
            Option.getD_some, hlen, hfind]
          unfold extractPrompt
          cases hf : List.find? (fun m => m.role == js "user") messages.reverse with
          | none => rfl
          | some found =>
            simp only [Option.map_some', Message.toJSON, JSON.member]
            rfl

/-- A body that parses to `null`: reading `requestData.messages` throws outside any `try`, so an
authorised request is not answered at all. -/
theorem handleChatCompletionsRaw_null_body (rest : JSON → Option JSON → RawOutcome)
    (request : RawRequest) (apiKey : JSString)
    (hauth : (verifyAuth ⟨request.authorization, none⟩ apiKey).truthy = true)
    (hbody : request.body = some JSON.null) :
    handleChatCompletionsRaw rest request apiKey = .threw .typeError := by
  simp [handleChatCompletionsRaw, hauth, hbody, JSON.member]

/-- A `messages` member that is a string: `messages.reverse` is not a function, and the
exception escapes the handler. -/
theorem handleChatCompletionsRaw_string_messages :
    handleChatCompletionsRaw (fun _ _ => RawOutcome.threw JSError.typeError)
      (RawRequest.mk none (some (JSON.obj [(js "messages", JSON.str (js "x"))]))) (js "1") =
      RawOutcome.threw JSError.typeError := rfl

/-- A `null` element after the last user message: reading its `role` throws, and the exception
escapes the handler. -/
theorem handleChatCompletionsRaw_null_element :
    handleChatCompletionsRaw
      (fun _ _ => RawOutcome.returned ⟨createErrorResponse [] 500 [], [], none⟩)
      (RawRequest.mk none (some (JSON.obj [(js "messages",
        JSON.arr [JSON.obj [(js "role", JSON.str (js "user")), (js "content", JSON.str [])],
          JSON.null])]))) (js "1") =
      RawOutcome.threw JSError.typeError := rfl

/-- C9, amended. For every request whose body is not parseable JSON, or whose parsed body is a
JSON value other than `null` whose `messages` member is missing, falsy or an empty array, the
handler returns a structured error response (401 when the request is not authorised, else 400
with code "invalid_json" or "invalid_request"), makes no upstream call and starts no stream,
whatever the remainder of the function would do. -/
theorem malformed_request_rejected (rest : JSON → Option JSON → RawOutcome)
    (request : RawRequest) (apiKey : JSString)
    (hbad : request.body = none ∨
      ∃ requestData, request.body = some requestData ∧ requestData ≠ JSON.null ∧
        (requestData.member (js "messages") = .ok none ∨
          (∃ value, requestData.member (js "messages") = .ok (some value) ∧
            value.truthy = false) ∨
          requestData.member (js "messages") = .ok (some (JSON.arr [])))) :
    (∃ message status code,
      handleChatCompletionsRaw rest request apiKey =
        .returned ⟨createErrorResponse message status code, [], none⟩ ∧
      ((verifyAuth ⟨request.authorization, none⟩ apiKey).truthy = false →
        status = 401 ∧ code = js "unauthorized") ∧
      ((verifyAuth ⟨request.authorization, none⟩ apiKey).truthy = true → request.body = none →
        status = 400 ∧ code = js "invalid_json") ∧
      ((verifyAuth ⟨request.authorization, none⟩ apiKey).truthy = true → request.body ≠ none →
        status = 400 ∧ code = js "invalid_request")) ∧
    (∀ rest2, handleChatCompletionsRaw rest2 request apiKey =
      handleChatCompletionsRaw rest request apiKey) := by
  have key : ∀ rest1 : JSON → Option JSON → RawOutcome,
      ∃ message status code,
        handleChatCompletionsRaw rest1 request apiKey =
          .returned ⟨createErrorResponse message status code, [], none⟩ ∧
        ((message, status, code) =
            (js "未授权 (Unauthorized)", 401, js "unauthorized") ∧
            (verifyAuth ⟨request.authorization, none⟩ apiKey).truthy = false ∨
          (message, status, code) = (js "无效的 JSON 请求体", 400, js "invalid_json") ∧
            (verifyAuth ⟨request.authorization, none⟩ apiKey).truthy = true ∧
            request.body = none ∨
          (message, status, code) = (js "messages 不能为空", 400, js "invalid_request") ∧
            (verifyAuth ⟨request.authorization, none⟩ apiKey).truthy = true ∧
            request.body ≠ none) := by
    intro rest1
    cases hauth : (verifyAuth ⟨request.authorization, none⟩ apiKey).truthy
    · exact ⟨_, _, _, by simp [handleChatCompletionsRaw, hauth], Or.inl ⟨rfl, rfl⟩⟩
    · rcases hbad with hnone | ⟨requestData, hsome, _, hmsgs⟩
      · exact ⟨_, _, _, by simp [handleChatCompletionsRaw, hauth, hnone],
          Or.inr (Or.inl ⟨rfl, rfl, hnone⟩)⟩
      · refine ⟨_, _, _, ?_, Or.inr (Or.inr ⟨rfl, rfl, by simp [hsome]⟩)⟩
        rcases hmsgs with h | ⟨value, h, hfalsy⟩ | h
        · simp [handleChatCompletionsRaw, hauth, hsome, h, lengthIsZero]
        · simp [handleChatCompletionsRaw, hauth, hsome, h, hfalsy, lengthIsZero]
        · simp [handleChatCompletionsRaw, hauth, hsome, h, JSON.truthy, lengthIsZero]
  constructor
  · obtain ⟨message, status, code, hres, hcases⟩ := key rest
    refine ⟨message, status, code, hres, ?_, ?_, ?_⟩
    · intro hfalse
      rcases hcases with ⟨heq, _⟩ | ⟨_, htrue, _⟩ | ⟨_, htrue, _⟩
      · simp only [Prod.mk.injEq] at heq
        exact ⟨heq.2.1, heq.2.2⟩
      · rw [hfalse] at htrue; exact absurd htrue (by decide)
      · rw [hfalse] at htrue; exact absurd htrue (by decide)
    · intro htrue hnone
      rcases hcases with ⟨_, hfalse⟩ | ⟨heq, _, _⟩ | ⟨_, _, hne⟩
      · rw [htrue] at hfalse; exact absurd hfalse (by decide)
      · simp only [Prod.mk.injEq] at heq
        exact ⟨heq.2.1, heq.2.2⟩
      · exact absurd hnone hne
    · intro htrue hne
      rcases hcases with ⟨_, hfalse⟩ | ⟨_, _, hnone⟩ | ⟨heq, _, _⟩
      · rw [htrue] at hfalse; exact absurd hfalse (by decide)
      · exact absurd hnone hne
      · simp only [Prod.mk.injEq] at heq
        exact ⟨heq.2.1, heq.2.2⟩
  · intro rest2
    obtain ⟨m1, s1, c1, h1, hc1⟩ := key rest
    obtain ⟨m2, s2, c2, h2, hc2⟩ := key rest2
    rw [h1, h2]
    have hsame : (m2, s2, c2) = (m1, s1, c1) := by
      rcases hc1 with ⟨e1, a1⟩ | ⟨e1, a1, b1⟩ | ⟨e1, a1, b1⟩ <;>
        rcases hc2 with ⟨e2, a2⟩ | ⟨e2, a2, b2⟩ | ⟨e2, a2, b2⟩
      · rw [e1, e2]
      · rw [a1] at a2; exact absurd a2 (by decide)
      · rw [a1] at a2; exact absurd a2 (by decide)
      · rw [a1] at a2; exact absurd a2 (by decide)
      · rw [e1, e2]
      · exact absurd b1 b2
      · rw [a1] at a2; exact absurd a2 (by decide)
      · exact absurd b2 b1
      · rw [e1, e2]
    simp only [Prod.mk.injEq] at hsame
    obtain ⟨hm, hs, hc⟩ := hsame
    subst hm hs hc
    rfl

theorem malformed_request_rejected_witness :
    ((RawRequest.mk none (some (JSON.obj [(js "model", JSON.str (js "essay-writer")),
        (js "messages", JSON.arr [])]))).body = none ∨
      ∃ requestData,
        (RawRequest.mk none (some (JSON.obj [(js "model", JSON.str (js "essay-writer")),
          (js "messages", JSON.arr [])]))).body = some requestData ∧
        requestData ≠ JSON.null ∧
        (requestData.member (js "messages") = .ok none ∨
          (∃ value, requestData.member (js "messages") = .ok (some value) ∧
            value.truthy = false) ∨
          requestData.member (js "messages") = .ok (some (JSON.arr [])))) ∧
    ((∃ message status code,
      handleChatCompletionsRaw (fun _ _ => RawOutcome.threw JSError.typeError)
        (RawRequest.mk none (some (JSON.obj [(js "model", JSON.str (js "essay-writer")),
          (js "messages", JSON.arr [])]))) (js "1") =
        .returned ⟨createErrorResponse message status code, [], none⟩ ∧
      ((verifyAuth ⟨(RawRequest.mk none (some (JSON.obj
          [(js "model", JSON.str (js "essay-writer")),
            (js "messages", JSON.arr [])]))).authorization, none⟩ (js "1")).truthy = false →
        status = 401 ∧ code = js "unauthorized") ∧
      ((verifyAuth ⟨(RawRequest.mk none (some (JSON.obj
          [(js "model", JSON.str (js "essay-writer")),
            (js "messages", JSON.arr [])]))).authorization, none⟩ (js "1")).truthy = true →
        (RawRequest.mk none (some (JSON.obj [(js "model", JSON.str (js "essay-writer")),
          (js "messages", JSON.arr [])]))).body = none →
        status = 400 ∧ code = js "invalid_json") ∧
      ((verifyAuth ⟨(RawRequest.mk none (some (JSON.obj
          [(js "model", JSON.str (js "essay-writer")),
            (js "messages", JSON.arr [])]))).authorization, none⟩ (js "1")).truthy = true →
        (RawRequest.mk none (some (JSON.obj [(js "model", JSON.str (js "essay-writer")),
          (js "messages", JSON.arr [])]))).body ≠ none →
        status = 400 ∧ code = js "invalid_request")) ∧
    (∀ rest2, handleChatCompletionsRaw rest2
        (RawRequest.mk none (some (JSON.obj [(js "model", JSON.str (js "essay-writer")),
          (js "messages", JSON.arr [])]))) (js "1") =
      handleChatCompletionsRaw (fun _ _ => RawOutcome.threw JSError.typeError)
        (RawRequest.mk none (some (JSON.obj [(js "model", JSON.str (js "essay-writer")),
          (js "messages", JSON.arr [])]))) (js "1"))) :=
  ⟨Or.inr ⟨_, rfl, fun h => JSON.noConfusion h, Or.inr (Or.inr rfl)⟩,
    malformed_request_rejected (fun _ _ => RawOutcome.threw JSError.typeError)
      (RawRequest.mk none (some (JSON.obj [(js "model", JSON.str (js "essay-writer")),
        (js "messages", JSON.arr [])]))) (js "1")
      (Or.inr ⟨_, rfl, fun h => JSON.noConfusion h, Or.inr (Or.inr rfl)⟩)⟩

/-! ## An empty generation -/

/-- C10, counterexample. A non-streaming request whose upstream body is `{ response: "" }`:
the empty text is falsy, so the content of the response is the fallback text and
`completion_tokens` is 9, not 0. -/
theorem empty_upstream_response_falls_back :
    (handleChatCompletions (Env.mk (js "u-1") (js "u-2") 1700000000123)
        (fun _ => FetchResult.response 200 (.ok []) (.ok (UpstreamData.mk (some []) none)))
        (Request.mk none (some (RequestData.mk none (some [Message.mk (js "user") (js "Hi")])
          false))) (js "1")).response.body =
      Body.completion (buildCompletion (js "chatcmpl-u-1") 1700000000 (js "brainstorm-tool")
        (js "Hi") (js "无法获取有效回复。")) ∧
    (buildCompletion (js "chatcmpl-u-1") 1700000000 (js "brainstorm-tool")
        (js "Hi") (js "无法获取有效回复。")).choices.map (fun ch => ch.message.content) ≠ [[]] ∧
    (buildCompletion (js "chatcmpl-u-1") 1700000000 (js "brainstorm-tool")
        (js "Hi") (js "无法获取有效回复。")).usage.completion_tokens = 9 := by
  decide

/-- C10, amended. For an authorised non-streaming request whose upstream body has a missing or
empty `response`: when `responses[0]` is the empty string the response has content "" and
`completion_tokens` 0; when `responses` is missing or empty the content is the fallback text
and `completion_tokens` is 9. -/
theorem empty_generation_completion (env : Env) (upstream : UpstreamCall → FetchResult)
    (request : Request) (apiKey : JSString) (requestData : RequestData)
    (messages : List Message) (status : Nat) (text : Except JSString JSString)
    (data : UpstreamData)
    (hauth : (verifyAuth request apiKey).truthy = true)
    (hbody : request.body = some requestData)
    (hmsgs : requestData.messages = some messages) (hne : messages ≠ [])
    (hstream : requestData.stream = false)
    (hup : upstream (upstreamCallFor env (toolIdFor (requestedModel requestData))
      (extractPrompt messages)) = FetchResult.response status text (.ok data))
    (hok : 200 ≤ status ∧ status ≤ 299)
    (hresponse : data.response = none ∨ data.response = some []) :
    ∃ completion choice,
      (handleChatCompletions env upstream request apiKey).response.body =
        Body.completion completion ∧
      completion.choices = [choice] ∧
      ((∃ rest, data.responses = some ([] :: rest)) →
        choice.message.content = [] ∧ completion.usage.completion_tokens = 0) ∧
      ((data.responses = none ∨ data.responses = some []) →
        choice.message.content = js "无法获取有效回复。" ∧
        completion.usage.completion_tokens = 9) := by
  have h := handleChatCompletions_ok env upstream request apiKey requestData messages status
    text data hauth hbody hmsgs hne hup hok
  rw [hstream] at h
  simp only [Bool.false_eq_true, if_false] at h
  rw [h]
  refine ⟨_, _, rfl, rfl, ?_, ?_⟩
  · rintro ⟨rest, hrest⟩
    have hc : resolveContent data = [] := by
      unfold resolveContent
      rcases hresponse with hr | hr <;> simp [hr, hrest]
    constructor
    · show resolveContent data = _
      exact hc
    · show (resolveContent data).length = 0
      rw [hc]
      rfl
  · intro hrs
    have hc : resolveContent data = js "无法获取有效回复。" := by
      unfold resolveContent
      rcases hresponse with hr | hr <;> rcases hrs with hs | hs <;> simp [hr, hs]
    constructor
    · show resolveContent data = _
      exact hc
    · show (resolveContent data).length = 9
      rw [hc]
      decide

theorem empty_generation_completion_witness :
    (verifyAuth (Request.mk none (some (RequestData.mk none
        (some [Message.mk (js "user") (js "Hi")]) false))) (js "1")).truthy = true ∧
    [Message.mk (js "user") (js "Hi")] ≠ [] ∧
    (200 ≤ 200 ∧ 200 ≤ 299) ∧
    ((UpstreamData.mk (some []) (some [[]])).response = none ∨
      (UpstreamData.mk (some []) (some [[]])).response = some []) ∧
    ∃ completion choice,
      (handleChatCompletions (Env.mk (js "u-1") (js "u-2") 1700000000123)
        (fun _ => FetchResult.response 200 (.ok []) (.ok (UpstreamData.mk (some []) (some [[]]))))
        (Request.mk none (some (RequestData.mk none (some [Message.mk (js "user") (js "Hi")])
          false))) (js "1")).response.body = Body.completion completion ∧
      completion.choices = [choice] ∧
      ((∃ rest, (UpstreamData.mk (some []) (some [[]])).responses = some ([] :: rest)) →
        choice.message.content = [] ∧ completion.usage.completion_tokens = 0) ∧
      (((UpstreamData.mk (some []) (some [[]])).responses = none ∨
          (UpstreamData.mk (some []) (some [[]])).responses = some []) →
        choice.message.content = js "无法获取有效回复。" ∧
        completion.usage.completion_tokens = 9) :=
  ⟨by decide, by decide, by decide, Or.inr rfl,
    empty_generation_completion (Env.mk (js "u-1") (js "u-2") 1700000000123)
      (fun _ => FetchResult.response 200 (.ok []) (.ok (UpstreamData.mk (some []) (some [[]]))))
      (Request.mk none (some (RequestData.mk none (some [Message.mk (js "user") (js "Hi")])
        false))) (js "1") _ [Message.mk (js "user") (js "Hi")] 200 (.ok []) _
      (by decide) rfl rfl (by decide) rfl rfl (by decide) (Or.inr rfl)⟩

/-! ## Authorisation -/

theorem js_bearer : js "Bearer " = [66, 101, 97, 114, 101, 114, 32] := by decide

/-- The requests `verifyAuth` accepts. -/
theorem verifyAuth_truthy_iff (request : Request) (validKey : JSString) :
    (verifyAuth request validKey).truthy = true ↔
      validKey = js "1" ∨ request.authorization = some (js "Bearer " ++ validKey) := by
  unfold verifyAuth
  by_cases hkey : validKey = js "1"
  · simp [hkey, AuthValue.truthy]
  · rw [if_neg hkey]
    cases hauth : request.authorization with
    | none => simp [AuthValue.truthy, hkey]
    | some auth =>
      cases auth with
      | nil => simp [AuthValue.truthy, hkey, js_bearer]
      | cons u rest => simp [AuthValue.truthy, hkey]

/-- The answer of `handleModels` to a request that is not authorised. -/
theorem handleModels_unauthorized (request : Request) (apiKey : JSString)
    (hauth : (verifyAuth request apiKey).truthy = false) :
    handleModels request apiKey = createErrorResponse (js "未授权") 401 (js "unauthorized") := by
  unfold handleModels
  simp [hauth]

/-- C11. The function `verifyAuth` accepts a request (returns a truthy value) if and only if
the valid key is exactly "1" or the `Authorization` header is exactly "Bearer " followed by
the valid key; with the key "1" it returns `true` whatever the headers; in every other case,
a missing header included (where it returns `null`), the result is falsy and both
`handleChatCompletions` and `handleModels` answer with a 401 error response. -/
theorem verifyAuth_accepts_iff (env : Env) (upstream : UpstreamCall → FetchResult)
    (request : Request) (validKey : JSString) :
    ((verifyAuth request validKey).truthy = true ↔
      validKey = js "1" ∨ request.authorization = some (js "Bearer " ++ validKey)) ∧
    (validKey = js "1" → verifyAuth request validKey = AuthValue.bool true) ∧
    (request.authorization = some (js "Bearer " ++ validKey) →
      verifyAuth request validKey = AuthValue.bool true) ∧
    (validKey ≠ js "1" → request.authorization = none →
      verifyAuth request validKey = AuthValue.null) ∧
    (¬ (validKey = js "1" ∨ request.authorization = some (js "Bearer " ++ validKey)) →
      (verifyAuth request validKey).truthy = false ∧
      (handleChatCompletions env upstream request validKey).response =
        createErrorResponse (js "未授权 (Unauthorized)") 401 (js "unauthorized") ∧
      (handleChatCompletions env upstream request validKey).response.status = 401 ∧
      (handleChatCompletions env upstream request validKey).upstreamCalls = [] ∧
      (handleChatCompletions env upstream request validKey).started = none ∧
      handleModels request validKey =
        createErrorResponse (js "未授权") 401 (js "unauthorized") ∧
      (handleModels request validKey).status = 401) := by
  refine ⟨verifyAuth_truthy_iff request validKey, ?_, ?_, ?_, ?_⟩
  · intro hkey
    simp [verifyAuth, hkey]
  · intro hauth
    by_cases hkey : validKey = js "1"
    · simp [verifyAuth, hkey]
    · simp [verifyAuth, hkey, hauth, js_bearer]
  · intro hkey hnone
    simp [verifyAuth, hkey, hnone]
  · intro hnot
    have hfalse : (verifyAuth request validKey).truthy = false := by
      cases h : (verifyAuth request validKey).truthy
      · rfl
      · exact absurd ((verifyAuth_truthy_iff request validKey).1 h) hnot
    have hchat := handleChatCompletions_unauthorized env upstream request validKey hfalse
    have hmodels := handleModels_unauthorized request validKey hfalse
    rw [hchat, hmodels]
    exact ⟨hfalse, rfl, rfl, rfl, rfl, rfl, rfl⟩

theorem verifyAuth_accepts_iff_witness :
    ¬ (js "secret" = js "1" ∨
        (Request.mk (some (js "Bearer wrong")) none).authorization =
          some (js "Bearer " ++ js "secret")) ∧
    (((verifyAuth (Request.mk (some (js "Bearer wrong")) none) (js "secret")).truthy = true ↔
      js "secret" = js "1" ∨
        (Request.mk (some (js "Bearer wrong")) none).authorization =
          some (js "Bearer " ++ js "secret")) ∧
    (js "secret" = js "1" →
      verifyAuth (Request.mk (some (js "Bearer wrong")) none) (js "secret") =
        AuthValue.bool true) ∧
    ((Request.mk (some (js "Bearer wrong")) none).authorization =
        some (js "Bearer " ++ js "secret") →
      verifyAuth (Request.mk (some (js "Bearer wrong")) none) (js "secret") =
        AuthValue.bool true) ∧
    (js "secret" ≠ js "1" → (Request.mk (some (js "Bearer wrong")) none).authorization = none →
      verifyAuth (Request.mk (some (js "Bearer wrong")) none) (js "secret") = AuthValue.null) ∧
    (¬ (js "secret" = js "1" ∨
        (Request.mk (some (js "Bearer wrong")) none).authorization =
          some (js "Bearer " ++ js "secret")) →
      (verifyAuth (Request.mk (some (js "Bearer wrong")) none) (js "secret")).truthy = false ∧
      (handleChatCompletions (Env.mk (js "u-1") (js "u-2") 1700000000123)
        (fun _ => FetchResult.threw (js "network"))
        (Request.mk (some (js "Bearer wrong")) none) (js "secret")).response =
        createErrorResponse (js "未授权 (Unauthorized)") 401 (js "unauthorized") ∧
      (handleChatCompletions (Env.mk (js "u-1") (js "u-2") 1700000000123)
        (fun _ => FetchResult.threw (js "network"))
        (Request.mk (some (js "Bearer wrong")) none) (js "secret")).response.status = 401 ∧
      (handleChatCompletions (Env.mk (js "u-1") (js "u-2") 1700000000123)
        (fun _ => FetchResult.threw (js "network"))
        (Request.mk (some (js "Bearer wrong")) none) (js "secret")).upstreamCalls = [] ∧
      (handleChatCompletions (Env.mk (js "u-1") (js "u-2") 1700000000123)
        (fun _ => FetchResult.threw (js "network"))
        (Request.mk (some (js "Bearer wrong")) none) (js "secret")).started = none ∧
      handleModels (Request.mk (some (js "Bearer wrong")) none) (js "secret") =
        createErrorResponse (js "未授权") 401 (js "unauthorized") ∧
      (handleModels (Request.mk (some (js "Bearer wrong")) none) (js "secret")).status = 401)) :=
  ⟨by decide,
    verifyAuth_accepts_iff (Env.mk (js "u-1") (js "u-2") 1700000000123)
      (fun _ => FetchResult.threw (js "network"))
      (Request.mk (some (js "Bearer wrong")) none) (js "secret")⟩

end Worker
